import Mathlib

/-!
Formal model of the gaze media-indexing engine, shallowly embedded from the
Python sources (`engine/src/engine/...`).  Machine bytes are `Nat` values
below 256, file contents are byte lists, database tables are Lean lists of
row structures, and similarity arithmetic is carried out over `ℚ`.  Each
definition mirrors one Python function or one localized block of one; the
theorems at the end of the file settle the frozen claims about the engine.
-/

set_option maxRecDepth 200000

namespace Gaze

/-! ## SHA-256 (as used by `hashlib.sha256` in `core/scanner.py`)

A byte-level executable SHA-256 over `Nat`, with all 32-bit arithmetic made
explicit via `% 4294967296`.  Only structural recursion is used so that every
digest below evaluates inside the kernel. -/

/-- 2^32, the modulus of all SHA-256 word arithmetic. -/
def M32 : Nat := 4294967296

/-- Right rotation of a 32-bit word by `n` places. -/
def rotr32 (n x : Nat) : Nat :=
  ((x >>> n) + (x % 2 ^ n) * 2 ^ (32 - n)) % M32

/-- Bitwise complement within 32 bits. -/
def not32 (x : Nat) : Nat := x ^^^ 4294967295

/-- SHA-256 `Ch` function. -/
def sha2Ch (x y z : Nat) : Nat := (x &&& y) ^^^ (not32 x &&& z)

/-- SHA-256 `Maj` function. -/
def sha2Maj (x y z : Nat) : Nat := (x &&& y) ^^^ (x &&& z) ^^^ (y &&& z)

/-- SHA-256 big sigma-0. -/
def bigSigma0 (x : Nat) : Nat := rotr32 2 x ^^^ rotr32 13 x ^^^ rotr32 22 x

/-- SHA-256 big sigma-1. -/
def bigSigma1 (x : Nat) : Nat := rotr32 6 x ^^^ rotr32 11 x ^^^ rotr32 25 x

/-- SHA-256 small sigma-0. -/
def smallSigma0 (x : Nat) : Nat := rotr32 7 x ^^^ rotr32 18 x ^^^ (x >>> 3)

/-- SHA-256 small sigma-1. -/
def smallSigma1 (x : Nat) : Nat := rotr32 17 x ^^^ rotr32 19 x ^^^ (x >>> 10)

/-- The 64 SHA-256 round constants. -/
def sha2K : List Nat :=
  [1116352408, 1899447441, 3049323471, 3921009573, 961987163, 1508970993,
   2453635748, 2870763221, 3624381080, 310598401, 607225278, 1426881987,
   1925078388, 2162078206, 2614888103, 3248222580, 3835390401, 4022224774,
   264347078, 604807628, 770255983, 1249150122, 1555081692, 1996064986,
   2554220882, 2821834349, 2952996808, 3210313671, 3336571891, 3584528711,
   113926993, 338241895, 666307205, 773529912, 1294757372, 1396182291,
   1695183700, 1986661051, 2177026350, 2456956037, 2730485921, 2820302411,
   3259730800, 3345764771, 3516065817, 3600352804, 4094571909, 275423344,
   430227734, 506948616, 659060556, 883997877, 958139571, 1322822218,
   1537002063, 1747873779, 1955562222, 2024104815, 2227730452, 2361852424,
   2428436474, 2756734187, 3204031479, 3329325298]

/-- The initial SHA-256 hash state. -/
def sha2H0 : List Nat :=
  [1779033703, 3144134277, 1013904242, 2773480762, 1359893119, 2600822924,
   528734635, 1541459225]

/-- Split a list into chunks of `k` elements; `fuel` bounds the recursion and
is instantiated with the list length. -/
def chunkList (k : Nat) : Nat → List Nat → List (List Nat)
  | 0, _ => []
  | _, [] => []
  | fuel + 1, l => l.take k :: chunkList k fuel (l.drop k)

/-- Big-endian bytes (`k` of them) of a natural number. -/
def natToBytesBE : Nat → Nat → List Nat
  | 0, _ => []
  | k + 1, x => natToBytesBE k (x / 256) ++ [x % 256]

/-- Big-endian 32-bit word from four bytes. -/
def bytesToWord (bs : List Nat) : Nat :=
  bs.foldl (fun acc b => acc * 256 + b) 0

/-- SHA-256 padding of a byte message: `0x80`, zeros to 56 mod 64, then the
bit length as eight big-endian bytes. -/
def sha2Pad (msg : List Nat) : List Nat :=
  let l := msg.length
  let zeros := (119 - l % 64) % 64
  msg ++ 128 :: (List.replicate zeros 0 ++ natToBytesBE 8 (8 * l))

/-- Extend the 16 message-schedule words (given reversed) by `n` more words;
the accumulator stays reversed, so indices 1, 6, 14, 15 address
`W[t-2], W[t-7], W[t-15], W[t-16]`. -/
def extendSchedule : Nat → List Nat → List Nat
  | 0, acc => acc
  | n + 1, acc =>
      let w := (smallSigma1 (acc.getD 1 0) + acc.getD 6 0 +
                smallSigma0 (acc.getD 14 0) + acc.getD 15 0) % M32
      extendSchedule n (w :: acc)

/-- The 64-entry message schedule of a 64-byte block. -/
def sha2Schedule (block : List Nat) : List Nat :=
  let w16 := (chunkList 4 block.length block).map bytesToWord
  (extendSchedule 48 w16.reverse).reverse

/-- One SHA-256 round; the state is the list `[a, b, c, d, e, f, g, h]`. -/
def sha2Round (st : List Nat) (kw : Nat × Nat) : List Nat :=
  let a := st.getD 0 0
  let b := st.getD 1 0
  let c := st.getD 2 0
  let d := st.getD 3 0
  let e := st.getD 4 0
  let f := st.getD 5 0
  let g := st.getD 6 0
  let h := st.getD 7 0
  let t1 := (h + bigSigma1 e + sha2Ch e f g + kw.1 + kw.2) % M32
  let t2 := (bigSigma0 a + sha2Maj a b c) % M32
  [(t1 + t2) % M32, a, b, c, (d + t1) % M32, e, f, g]

/-- Compress one 64-byte block into the running hash state. -/
def sha2Compress (hs : List Nat) (block : List Nat) : List Nat :=
  let final := (sha2K.zip (sha2Schedule block)).foldl sha2Round hs
  (hs.zip final).map (fun p => (p.1 + p.2) % M32)

/-- The eight 32-bit words of the SHA-256 digest of a byte message. -/
def sha256Words (msg : List Nat) : List Nat :=
  (chunkList 64 (sha2Pad msg).length (sha2Pad msg)).foldl sha2Compress sha2H0

/-- One lowercase hex digit. -/
def hexDigit (n : Nat) : Char :=
  "0123456789abcdef".toList.getD n "0".toList.head!

/-- Big-endian lowercase hex (`k` digits) of a natural number. -/
def natToHex : Nat → Nat → List Char
  | 0, _ => []
  | k + 1, x => natToHex k (x / 16) ++ [hexDigit (x % 16)]

/-- Lowercase hex digest of SHA-256, as `hashlib.sha256(...).hexdigest()`. -/
def sha256Hex (msg : List Nat) : String :=
  String.mk (((sha256Words msg).map (natToHex 8)).flatten)

/-! ## Content fingerprint (`core/scanner.py`, `compute_fingerprint`)

A file is its list of bytes.  The Python code hashes the UTF-8 encoding of
the f-string `"\x7bfile_size\x7d:\x7bhead\x7d:\x7btail\x7d"`, and f-string
interpolation of a `bytes` object produces its `repr` (`b'...'` with escape
sequences), so that rendering is modelled exactly. -/

/-- Decimal digits of a natural number (`fuel` bounds the recursion). -/
def natToDecAux : Nat → Nat → List Char
  | 0, _ => []
  | fuel + 1, x =>
      if x < 10 then [hexDigit x] else natToDecAux fuel (x / 10) ++ [hexDigit (x % 10)]

/-- Decimal rendering of a natural number, as Python `str(int)`. -/
def natToDec (n : Nat) : String := String.mk (natToDecAux (n + 1) n)

/-- CPython escape of one byte inside a `bytes` repr delimited by `quote`. -/
def pyByteEscape (quote : Nat) (c : Nat) : List Char :=
  if c = quote ∨ c = 92 then [Char.ofNat 92, Char.ofNat c]
  else if c = 9 then [Char.ofNat 92, Char.ofNat 116]
  else if c = 10 then [Char.ofNat 92, Char.ofNat 110]
  else if c = 13 then [Char.ofNat 92, Char.ofNat 114]
  else if c < 32 ∨ 127 ≤ c then Char.ofNat 92 :: Char.ofNat 120 :: natToHex 2 c
  else [Char.ofNat c]

/-- CPython `repr` of a `bytes` value: `b` plus a quoted escaped body; the
quote is a double quote exactly when the bytes contain a single quote but no
double quote. -/
def pyBytesRepr (bs : List Nat) : String :=
  let quote : Nat := if bs.contains 39 && !(bs.contains 34) then 34 else 39
  String.mk (Char.ofNat 98 :: Char.ofNat quote ::
    ((bs.map (pyByteEscape quote)).flatten ++ [Char.ofNat quote]))

/-- UTF-8 bytes of an ASCII string (every string hashed here is ASCII). -/
def strToBytes (s : String) : List Nat := s.toList.map Char.toNat

/-- First 16 characters of a hex digest, as `hexdigest()[:16]`. -/
def truncHex16 (s : String) : String := String.mk (s.toList.take 16)

/-- Embedding of `compute_fingerprint`: empty files hash the sentinel
`b"empty"`; otherwise `head` is `f.read(65536)` and `tail` is the result of
`f.seek(-65536, 2); f.read(65536)` when `file_size > 65536`, else `b""`. -/
def compute_fingerprint (file : List Nat) : String :=
  let file_size := file.length
  if file_size = 0 then truncHex16 (sha256Hex (strToBytes "empty"))
  else
    let head := file.take 65536
    let tail := if file_size > 65536 then (file.drop (file_size - 65536)).take 65536 else []
    truncHex16 (sha256Hex (strToBytes
      (natToDec file_size ++ ":" ++ pyBytesRepr head ++ ":" ++ pyBytesRepr tail)))

/-- Modelled from the claim C9 as stated: the last-64-KiB read is taken to
happen for every non-empty file, overlapping the first read when the file
has 64 KiB or fewer bytes (so for such files the tail is the whole file).
The byte-to-string rendering is kept identical to the source so that only
the disputed tail construction differs. -/
def fingerprintClaimedC9 (file : List Nat) : String :=
  let file_size := file.length
  if file_size = 0 then truncHex16 (sha256Hex (strToBytes "empty"))
  else
    let head := file.take 65536
    let tail := file.drop (file_size - 65536)
    truncHex16 (sha256Hex (strToBytes
      (natToDec file_size ++ ":" ++ pyBytesRepr head ++ ":" ++ pyBytesRepr tail)))

/-- Amended C9: the tail is the last 64 KiB only when the file is strictly
larger than 64 KiB, and the empty byte string otherwise (the two reads never
overlap); empty files map to the fixed sentinel fingerprint. -/
def fingerprintAmendedC9 (file : List Nat) : String :=
  if file.length = 0 then truncHex16 (sha256Hex (strToBytes "empty"))
  else
    let firstPart := file.take 65536
    let lastPart := if 65536 < file.length then file.drop (file.length - 65536) else []
    truncHex16 (sha256Hex (strToBytes
      (natToDec file.length ++ ":" ++ pyBytesRepr firstPart ++ ":" ++ pyBytesRepr lastPart)))

/-! ## Catalog rows and the library scanner (`core/scanner.py`)

Only the columns that the claims touch are modelled (processing state,
fingerprints, identity); technical/source metadata columns, extra-metadata
mirror tables and live-photo pairing are not, since no claim depends on
them.  A new row's `uuid4` is replaced by a deterministic surrogate derived
from the file path. -/

/-- A file on disk: its path, lowercased extension (`path.suffix.lower()`),
and content bytes. -/
structure SrcFile where
  path : String
  ext : String
  bytes : List Nat
deriving DecidableEq, Repr

/-- A row of the `media` table (claim-relevant columns). -/
structure MediaRow where
  mediaId : String
  libraryId : String
  path : String
  mediaType : String
  fileSize : Nat
  fingerprint : String
  status : String
  progress : ℚ
  errorCode : Option String
  errorMessage : Option String
deriving DecidableEq, Repr

/-- A row of the `videos` table (claim-relevant columns). -/
structure VideoRow where
  videoId : String
  libraryId : String
  path : String
  mediaType : String
  fileSize : Nat
  fingerprint : String
  status : String
  progress : ℚ
  errorCode : Option String
  errorMessage : Option String
  lastCompletedStage : Option String
deriving DecidableEq, Repr

/-- The catalog slice the scanner reads and writes. -/
structure Catalog where
  media : List MediaRow
  videos : List VideoRow
deriving DecidableEq, Repr

/-- Scan statistics, as the returned `stats` dict. -/
structure ScanStats where
  filesFound : Nat
  filesNew : Nat
  filesChanged : Nat
  filesUnchanged : Nat
  filesDeleted : Nat
deriving DecidableEq, Repr

/-- Supported video extensions. -/
def VIDEO_EXTENSIONS : List String :=
  [".mp4", ".mkv", ".avi", ".mov", ".wmv", ".flv", ".webm",
   ".m4v", ".mpg", ".mpeg", ".3gp", ".3g2", ".ts", ".mts"]

/-- Supported photo extensions. -/
def PHOTO_EXTENSIONS : List String :=
  [".jpg", ".jpeg", ".png", ".heic", ".heif", ".webp",
   ".bmp", ".tiff", ".tif", ".gif"]

/-- Statuses the scanner treats as in-progress during resync. -/
def IN_PROGRESS_STATUSES : List String :=
  ["EXTRACTING_AUDIO", "TRANSCRIBING", "EXTRACTING_FRAMES",
   "EMBEDDING", "DETECTING", "DETECTING_FACES"]

/-- First association-list value for a key. -/
def lookupAssoc {κ α : Type} [DecidableEq κ] (k : κ) : List (κ × α) → Option α
  | [] => none
  | (k2, v) :: rest => if k2 = k then some v else lookupAssoc k rest

/-- A filesystem: folders mapped to the media files discovered under them
(in discovery order, recursion already applied). -/
def FileSystem : Type := List (String × List SrcFile)

/-- Intermediate state of the reconciliation fold. -/
structure ScanState where
  catalog : Catalog
  seenPaths : List String
  stats : ScanStats
deriving Repr

/-- Process one discovered media file against the snapshot of pre-scan rows,
mirroring the new/changed/unchanged branches of `scan_library`. -/
def scanOneFile (libraryId : String)
    (existingMedia : List (String × MediaRow))
    (existingVideos : List (String × VideoRow))
    (st : ScanState) (f : SrcFile) : ScanState :=
  let fingerprint := compute_fingerprint f.bytes
  let mediaType := if VIDEO_EXTENSIONS.contains f.ext then "video" else "photo"
  let st := { st with
    seenPaths := st.seenPaths ++ [f.path],
    stats := { st.stats with filesFound := st.stats.filesFound + 1 } }
  match lookupAssoc f.path existingMedia with
  | some old =>
      if fingerprint = old.fingerprint ∧ mediaType = old.mediaType then
        { st with stats := { st.stats with filesUnchanged := st.stats.filesUnchanged + 1 } }
      else
        let media := st.catalog.media.map (fun r =>
          if r.mediaId = old.mediaId then
            { r with fingerprint := fingerprint, fileSize := f.bytes.length,
                     mediaType := mediaType, status := "QUEUED", progress := 0,
                     errorCode := none, errorMessage := none }
          else r)
        let videos :=
          match lookupAssoc f.path existingVideos with
          | some _ =>
              st.catalog.videos.map (fun r =>
                if r.videoId = old.mediaId then
                  { r with fingerprint := fingerprint, fileSize := f.bytes.length,
                           mediaType := mediaType, status := "QUEUED", progress := 0,
                           lastCompletedStage := none }
                else r)
          | none =>
              st.catalog.videos ++
                [{ videoId := old.mediaId, libraryId := libraryId, path := f.path,
                   mediaType := mediaType, fileSize := f.bytes.length,
                   fingerprint := fingerprint, status := "QUEUED", progress := 0,
                   errorCode := none, errorMessage := none, lastCompletedStage := none }]
        { st with
          catalog := { media := media, videos := videos },
          stats := { st.stats with filesChanged := st.stats.filesChanged + 1 } }
  | none =>
      let mediaId := "id_" ++ f.path
      { st with
        catalog :=
          { media := st.catalog.media ++
              [{ mediaId := mediaId, libraryId := libraryId, path := f.path,
                 mediaType := mediaType, fileSize := f.bytes.length,
                 fingerprint := fingerprint, status := "QUEUED", progress := 0,
                 errorCode := none, errorMessage := none }],
            videos := st.catalog.videos ++
              [{ videoId := mediaId, libraryId := libraryId, path := f.path,
                 mediaType := mediaType, fileSize := f.bytes.length,
                 fingerprint := fingerprint, status := "QUEUED", progress := 0,
                 errorCode := none, errorMessage := none, lastCompletedStage := none }] },
        stats := { st.stats with filesNew := st.stats.filesNew + 1 } }

/-- Delete the rows of pre-scan paths that were not seen during discovery. -/
def deleteUnseen (existingMedia : List (String × MediaRow)) (seen : List String)
    (cat : Catalog) (stats : ScanStats) : Catalog × ScanStats :=
  existingMedia.foldl
    (fun (acc : Catalog × ScanStats) entry =>
      if seen.contains entry.1 then acc
      else
        ({ media := acc.1.media.filter (fun r => r.mediaId ≠ entry.2.mediaId),
           videos := acc.1.videos.filter (fun r => r.videoId ≠ entry.2.mediaId) },
         { acc.2 with filesDeleted := acc.2.filesDeleted + 1 }))
    (cat, stats)

/-- Resync: requeue every row of the library that is neither `DONE` nor in
an in-progress status. -/
def resyncRequeue (libraryId : String) (cat : Catalog) : Catalog :=
  { media := cat.media.map (fun r =>
      if r.libraryId = libraryId ∧ r.status ≠ "DONE" ∧
          ¬ IN_PROGRESS_STATUSES.contains r.status then
        { r with status := "QUEUED", progress := 0,
                 errorCode := none, errorMessage := none }
      else r),
    videos := cat.videos.map (fun r =>
      if r.libraryId = libraryId ∧ r.status ≠ "DONE" ∧
          ¬ IN_PROGRESS_STATUSES.contains r.status then
        { r with status := "QUEUED", progress := 0,
                 errorCode := none, errorMessage := none,
                 lastCompletedStage := none }
      else r) }

/-- Embedding of `scan_library`: the root-existence check, the
snapshot-then-reconcile loop, the deleted pass and the resync requeue.  The
returned catalog carries every database side effect; on the missing-root
error the function raises before touching the database. -/
def scan_library (fs : FileSystem) (libraryId folderPath : String)
    (cat : Catalog) : Catalog × Except String ScanStats :=
  match lookupAssoc folderPath fs with
  | none => (cat, Except.error ("Folder does not exist: " ++ folderPath))
  | some discovered =>
      let mediaFiles := discovered.filter (fun f =>
        VIDEO_EXTENSIONS.contains f.ext || PHOTO_EXTENSIONS.contains f.ext)
      let existingMedia := (cat.media.filter (fun r => r.libraryId = libraryId)).map
        (fun r => (r.path, r))
      let existingVideos := (cat.videos.filter (fun r => r.libraryId = libraryId)).map
        (fun r => (r.path, r))
      let st0 : ScanState :=
        { catalog := cat, seenPaths := [],
          stats := ⟨0, 0, 0, 0, 0⟩ }
      let st := mediaFiles.foldl (scanOneFile libraryId existingMedia existingVideos) st0
      let (cat2, stats2) := deleteUnseen existingMedia st.seenPaths st.catalog st.stats
      (resyncRequeue libraryId cat2, Except.ok stats2)

/-! ## Startup crash repair (`core/lifecycle.py`, `repair_consistency`) -/

/-- A row of the `jobs` table (claim-relevant columns). -/
structure JobRow where
  jobId : String
  videoId : String
  status : String
  errorMessage : Option String
deriving DecidableEq, Repr

/-- The database slice touched by startup repair. -/
structure EngineDb where
  media : List MediaRow
  videos : List VideoRow
  jobs : List JobRow
deriving DecidableEq, Repr

/-- The `PROCESSING_STATES` list of `repair_consistency` (note: five entries;
`DETECTING_FACES` is absent, unlike the scanner's in-progress list). -/
def REPAIR_PROCESSING_STATES : List String :=
  ["EXTRACTING_AUDIO", "TRANSCRIBING", "EXTRACTING_FRAMES", "EMBEDDING", "DETECTING"]

/-- Embedding of `repair_consistency`: reset `videos` rows whose status is in
`REPAIR_PROCESSING_STATES` to `QUEUED` (progress 0, errors cleared), and mark
jobs whose status is `running` or `processing` as `failed` with an
interrupted message.  The `media` table is not touched by the source.
(Temp-file cleanup is a filesystem effect with no catalog footprint.) -/
def repair_consistency (db : EngineDb) : EngineDb :=
  { media := db.media,
    videos := db.videos.map (fun r =>
      if REPAIR_PROCESSING_STATES.contains r.status then
        { r with status := "QUEUED", progress := 0,
                 errorCode := none, errorMessage := none }
      else r),
    jobs := db.jobs.map (fun j =>
      if j.status = "running" ∨ j.status = "processing" then
        { j with status := "failed",
                 errorMessage := some "Interrupted by crash or shutdown" }
      else j) }

/-! ## Pipeline stage lists and resumption (`core/indexer.py`) -/

/-- Primary stage order for videos. -/
def VIDEO_PRIMARY_STAGES : List String :=
  ["EXTRACTING_FRAMES", "EMBEDDING", "DETECTING", "DETECTING_FACES"]

/-- Enhanced (audio) stages for videos. -/
def VIDEO_ENHANCED_STAGES : List String := ["EXTRACTING_AUDIO", "TRANSCRIBING"]

/-- Primary stage order for photos. -/
def PHOTO_PRIMARY_STAGES : List String :=
  ["EXTRACTING_FRAMES", "EMBEDDING", "DETECTING", "DETECTING_FACES"]

/-- Embedding of `get_primary_stage_list` (`preset` is modelled already
lowercased; Python lowercases and defaults the empty value to `deep`). -/
def get_primary_stage_list (mediaType : String) (faceRecognitionEnabled : Bool)
    (preset : String) : List String :=
  let preset := if preset = "" then "deep" else preset
  let stages :=
    if mediaType = "video" then
      if preset = "quick" then ["EXTRACTING_FRAMES", "EMBEDDING"] else VIDEO_PRIMARY_STAGES
    else
      if preset = "quick" then ["EXTRACTING_FRAMES", "EMBEDDING"] else PHOTO_PRIMARY_STAGES
  if faceRecognitionEnabled then stages
  else stages.filter (fun s => s ≠ "DETECTING_FACES")

/-- Minimal per-item pipeline state for the resume/interrupt analysis:
the catalog's status and `last_completed_stage` columns, the progress
column, and the list of stages whose `process_stage` body actually ran
(its on-disk/derived artifacts). -/
structure PipeState where
  status : String
  lastCompletedStage : Option String
  progress : ℚ
  doneWork : List String
deriving DecidableEq, Repr

/-- One atomic database write of the `process_video` loop. -/
inductive PipeAction
  | setStatus (s : String)
  | setStage (s : String)
  | work (s : String)
  | setProgress (q : ℚ)
  | markDone
deriving DecidableEq, Repr

/-- Effect of one atomic write.  `setStage` is the
`update_video_and_media_state(video_id, status=stage, last_completed_stage=stage)`
call that `process_video` issues before running the stage body. -/
def applyPipeAction (st : PipeState) : PipeAction → PipeState
  | PipeAction.setStatus s => { st with status := s }
  | PipeAction.setStage s => { st with status := s, lastCompletedStage := some s }
  | PipeAction.work s => { st with doneWork := st.doneWork ++ [s] }
  | PipeAction.setProgress q => { st with progress := q }
  | PipeAction.markDone => { st with status := "DONE", progress := 1 }

/-- Embedding of the `start_from` computation of `process_video`: resume
after `last_completed_stage`, except that an `EXTRACTING_FRAMES` resume
first verifies frames exist on disk (modelled as that stage's work having
run) and otherwise restarts from 0; an unknown stage restarts from 0. -/
def computeStartFrom (stages : List String) (st : PipeState) : Nat :=
  match st.lastCompletedStage with
  | none => 0
  | some lcs =>
      match stages.indexOf? lcs with
      | none => 0
      | some i =>
          if stages.getD i "" = "EXTRACTING_FRAMES" then
            if st.doneWork.contains "EXTRACTING_FRAMES" then i + 1 else 0
          else i + 1

/-- The atomic write sequence of one `process_video` run starting at
`startFrom`: the initial status write, then per stage the job/status/stage
writes, the stage work, and the progress write, then the `DONE` write. -/
def pipelineActions (stages : List String) (startFrom : Nat) : List PipeAction :=
  PipeAction.setStatus (stages.getD startFrom "DONE") ::
  ((stages.enum.drop startFrom).flatMap (fun p =>
    [PipeAction.setStage p.2, PipeAction.work p.2,
     PipeAction.setProgress ((p.1 + 1 : ℚ) / stages.length)])) ++
  [PipeAction.markDone]

/-- Run a full pipeline entry: compute the resume point and apply every
atomic write. -/
def runPipeline (stages : List String) (st : PipeState) : PipeState :=
  (pipelineActions stages (computeStartFrom stages st)).foldl applyPipeAction st

/-- Run a pipeline entry but stop (crash) after the first `k` atomic
writes. -/
def runPipelineInterrupted (stages : List String) (st : PipeState) (k : Nat) : PipeState :=
  ((pipelineActions stages (computeStartFrom stages st)).take k).foldl applyPipeAction st

/-- Startup repair as it acts on one item's pipeline state (the videos-table
branch of `repair_consistency`). -/
def repairItemState (st : PipeState) : PipeState :=
  if REPAIR_PROCESSING_STATES.contains st.status then
    { st with status := "QUEUED", progress := 0 }
  else st

/-! ## Frame extraction artifacts and the EMBEDDING / DETECTING stages -/

/-- A row of the `frames` table. -/
structure FrameRow where
  frameId : String
  videoId : String
  frameIndex : Nat
  timestampMs : Nat
  thumbnailPath : String
  colors : Option (List String)
deriving DecidableEq, Repr

/-- Zero-padded fixed-width decimal digits of a natural number. -/
def natToDecPad : Nat → Nat → List Char
  | 0, _ => []
  | k + 1, x => natToDecPad k (x / 10) ++ [hexDigit (x % 10)]

/-- `frame_NNNNNN.jpg`, the 1-based frame file name (§ frame extractor). -/
def frameFileName (i : Nat) : String :=
  "frame_" ++ String.mk (natToDecPad 6 i) ++ ".jpg"

/-- The stem of a `.jpg` file name (name without the extension). -/
def jpgStem (s : String) : String := String.mk (s.toList.take (s.length - 4))

/-- Grid thumbnail name derived from the first frame:
`first_frame.stem + "_grid.jpg"`. -/
def gridNameFrom (firstFrame : String) : String := jpgStem firstFrame ++ "_grid.jpg"

/-- Prefix test on strings via their character lists. -/
def strStartsWith (p s : String) : Bool := p.toList.isPrefixOf s.toList

/-- Suffix test on strings via their character lists. -/
def strEndsWith (p s : String) : Bool := p.toList.reverse.isPrefixOf s.toList.reverse

/-- Infix test on character lists. -/
def isInfixList (n : List Char) : List Char → Bool
  | [] => n.isEmpty
  | c :: t => n.isPrefixOf (c :: t) || isInfixList n t

/-- Python `needle in s` on strings. -/
def strContains (needle s : String) : Bool := isInfixList needle.toList s.toList

/-- `thumbnails_dir.glob("frame_*.jpg")` membership. -/
def matchesFrameGlob (s : String) : Bool :=
  strStartsWith "frame_" s && strEndsWith ".jpg" s

/-- Ascending insertion into a sorted list (stable). -/
def insertAscStr (a : String) : List String → List String
  | [] => [a]
  | x :: xs => if a < x then a :: x :: xs else x :: insertAscStr a xs

/-- Python `sorted` on file names (code-point lexicographic). -/
def sortStr (l : List String) : List String := l.foldl (fun acc s => insertAscStr s acc) []

/-- Truncating conversion of a non-negative rational to `Nat`, as Python
`int(...)` on the non-negative values that arise here. -/
def pyIntTrunc (q : ℚ) : Nat := q.num.toNat / q.den

/-- Frame-row timestamp written by `_save_frames`:
`0 if media_type == "photo" else int(idx * frame_interval_seconds * 1000)`. -/
def frameTimestampMs (mediaType : String) (interval : ℚ) (idx : Nat) : Nat :=
  if mediaType = "photo" then 0 else pyIntTrunc ((idx : ℚ) * interval * 1000)

/-- Embedding of the `EXTRACTING_FRAMES` stage on a fresh item: the frame
extractor produces `nFrames` files named `frame_NNNNNN.jpg` (one for a
photo), one grid thumbnail named after the first frame is added to the same
directory, and one frame row per extracted frame (grid excluded via the
`"_grid" not in f.name` filter) is inserted with index `idx` and the
frame-derived timestamp.  Returns the directory listing and the inserted
frame rows; `colorOracle` stands for `extract_dominant_colors`. -/
def extractingFramesStage (videoId mediaType : String) (interval : ℚ)
    (colorOracle : String → Option (List String)) (nFrames : Nat) :
    List String × List FrameRow :=
  let extracted :=
    if mediaType = "photo" then [frameFileName 1]
    else (List.range nFrames).map (fun i => frameFileName (i + 1))
  let existingFrames := sortStr ((extracted.filter matchesFrameGlob).filter
    (fun f => !(strContains "_grid" f)))
  let dir := extracted ++
    (match existingFrames with
     | [] => []
     | f :: _ => [gridNameFrom f])
  let rows := existingFrames.enum.map (fun p =>
    ({ frameId := videoId ++ "_frame_" ++ String.mk (natToDecPad 6 p.1),
       videoId := videoId,
       frameIndex := p.1,
       timestampMs := frameTimestampMs mediaType interval p.1,
       thumbnailPath := p.2,
       colors := colorOracle p.2 } : FrameRow))
  (dir, rows)

/-- The frame files the `EMBEDDING` stage iterates over:
`sorted(thumbnails_dir.glob("frame_*.jpg"))` — note: no `_grid` filter. -/
def embeddingStageFrames (dir : List String) : List String :=
  sortStr (dir.filter matchesFrameGlob)

/-- Embedding of the `EMBEDDING` stage's shard construction: one vector per
file of `embeddingStageFrames`, added in that order (`embed` stands for
`embed_image`). -/
def embeddingShard {α : Type} (embed : String → α) (dir : List String) : List α :=
  (embeddingStageFrames dir).map embed

/-- A row of the `detections` table (claim-relevant columns). -/
structure DetectionRow where
  videoId : String
  frameId : String
  timestampMs : Nat
  label : String
  confidence : ℚ
deriving DecidableEq, Repr

/-- Embedding of `detect_objects` (`ml/detector.py`): the raw detector
output for an image (the `oracle`) filtered to confidences not below the
threshold. -/
def detect_objects (oracle : String → List (String × ℚ)) (threshold : ℚ)
    (img : String) : List (String × ℚ) :=
  (oracle img).filter (fun d => !(d.2 < threshold))

/-- Embedding of the `DETECTING` stage: list `sorted(glob("frame_*.jpg"))`
(again without a `_grid` filter), enumerate, look each index up among the
item's frame rows, run the detector at threshold 0.25, and stamp each
detection with `timestamp_ms = idx * 2000`; then, in one transaction,
delete the item's prior detections and insert the new ones. -/
def detectingStage (videoId : String) (oracle : String → List (String × ℚ))
    (dir : List String) (frameRows : List FrameRow)
    (detections : List DetectionRow) : List DetectionRow :=
  let framePaths := sortStr (dir.filter matchesFrameGlob)
  let frameIdsByIndex := frameRows.map (fun r => (r.frameIndex, r.frameId))
  let allDetections := framePaths.enum.flatMap (fun p =>
    match lookupAssoc p.1 frameIdsByIndex with
    | none => []
    | some fid => (detect_objects oracle (1/4) p.2).map (fun d =>
        ({ videoId := videoId, frameId := fid, timestampMs := p.1 * 2000,
           label := d.1, confidence := d.2 } : DetectionRow)))
  detections.filter (fun r => r.videoId ≠ videoId) ++ allDetections

/-! ## Face rows and the DETECTING_FACES save transaction -/

/-- A row of the `faces` table (claim-relevant columns). -/
structure FaceRec where
  faceId : String
  videoId : String
  personId : Option String
  embedding : List ℚ
  assignmentSource : Option String
  assignmentConfidence : Option ℚ
  assignedAtMs : Option Int
deriving DecidableEq, Repr

/-- A row of the `persons` table (claim-relevant columns). -/
structure PersonRec where
  personId : String
  faceCount : Nat
  thumbnailFaceId : Option String
  recognitionMode : String
deriving DecidableEq, Repr

/-- Number of face rows assigned to a person. -/
def countFacesOf (pid : String) (faces : List FaceRec) : Nat :=
  (faces.filter (fun f => f.personId = some pid)).length

/-- Embedding of the `_save_faces` transaction of the `DETECTING_FACES`
stage: delete the item's prior face rows, insert the newly detected ones,
and — only when at least one new face was auto-recognized — recompute
`face_count` for the persons that appear among the item's (new) face rows. -/
def saveFacesTransaction (videoId : String) (newFaces : List FaceRec)
    (faces : List FaceRec) (persons : List PersonRec) :
    List FaceRec × List PersonRec :=
  let faces2 := faces.filter (fun f => f.videoId ≠ videoId) ++ newFaces
  let autoRecognized :=
    (newFaces.filter (fun f => f.assignmentSource = some "auto")).length
  let affected := (faces2.filter (fun f => f.videoId = videoId)).filterMap
    (fun f => f.personId)
  let persons2 :=
    if autoRecognized > 0 then
      persons.map (fun p =>
        if affected.contains p.personId then
          { p with faceCount := countFacesOf p.personId faces2 }
        else p)
    else persons
  (faces2, persons2)

/-! ## Learned face matching (`core/indexer.py`, `find_best_person_match_learned`)

Embeddings are rational vectors.  `compute_face_similarity` in
`ml/face_detector.py` divides each argument by its Euclidean norm and maps
the dot product from `[-1, 1]` to `[0, 1]`; every embedding handled by the
matcher is unit-norm (the face detector contract, and the weighted centroid
is normalized on construction), on which the division is the identity, so
the model takes the inputs as already normalized.  The spec's `cos(x, y)`
denotes this `[0, 1]`-valued similarity throughout (its thresholds 0.5,
0.65, 0.7 live on that scale). -/

/-- Dot product of rational vectors. -/
def dotQ (a b : List ℚ) : ℚ := ((a.zip b).map (fun p => p.1 * p.2)).sum

/-- Embedding of `compute_face_similarity` on unit-norm inputs:
`(np.dot(e1, e2) + 1) / 2`. -/
def compute_face_similarity (a b : List ℚ) : ℚ := (dotQ a b + 1) / 2

/-- Python `max` of a nonempty list (callers guard nonemptiness). -/
def listMaxQ : List ℚ → ℚ
  | [] => 0
  | [x] => x
  | x :: y :: rest => max x (listMaxQ (y :: rest))

/-- The in-memory per-person learning data (`PersonEmbeddingData`). -/
structure PersonEmbeddingData where
  recognitionMode : String
  weightedEmbedding : Option (List ℚ)
  referenceEmbeddings : List (List ℚ)
  negativeEmbeddings : List (List ℚ)
deriving DecidableEq, Repr

/-- Base score of one person per its recognition mode; `none` is the
`continue` (person skipped).  Mirrors the three branches of the source:
`reference_only` needs references, `weighted` mixes `0.6 * max_ref +
0.4 * centroid` when references exist, anything else is `average`. -/
def learnedBaseScore (e : List ℚ) (d : PersonEmbeddingData) : Option ℚ :=
  if d.recognitionMode = "reference_only" then
    if d.referenceEmbeddings.isEmpty then none
    else some (listMaxQ (d.referenceEmbeddings.map (compute_face_similarity e)))
  else if d.recognitionMode = "weighted" then
    let avgSim := match d.weightedEmbedding with
      | some c => compute_face_similarity e c
      | none => 0
    if d.referenceEmbeddings.isEmpty then some avgSim
    else
      let refSim := listMaxQ (d.referenceEmbeddings.map (compute_face_similarity e))
      some (6/10 * refSim + 4/10 * avgSim)
  else
    match d.weightedEmbedding with
    | some c => some (compute_face_similarity e c)
    | none => none

/-- Negative penalty: with `n` the best similarity to a negative example,
multiply by `1 - n` when `n > 0.7`, else by `1 - 0.5 * n` when `n > 0.5`. -/
def negativePenalty (e : List ℚ) (d : PersonEmbeddingData) (sim : ℚ) : ℚ :=
  if d.negativeEmbeddings.isEmpty then sim
  else
    let n := listMaxQ (d.negativeEmbeddings.map (compute_face_similarity e))
    if n > 7/10 then sim * (1 - n)
    else if n > 1/2 then sim * (1 - 1/2 * n)
    else sim

/-- The scored-candidates list: per person in map order, the penalized base
score, kept only when positive. -/
def learnedScores (e : List ℚ) (persons : List (String × PersonEmbeddingData)) :
    List (String × ℚ) :=
  persons.filterMap (fun pd =>
    match learnedBaseScore e pd.2 with
    | none => none
    | some s0 =>
        let s := negativePenalty e pd.2 s0
        if s > 0 then some (pd.1, s) else none)

/-- Stable descending insertion by score (Python `list.sort(reverse=True)`
is stable, so equal scores keep candidate order). -/
def insertDescQ (a : String × ℚ) : List (String × ℚ) → List (String × ℚ)
  | [] => [a]
  | x :: xs => if x.2 < a.2 then a :: x :: xs else x :: insertDescQ a xs

/-- Stable descending sort by score. -/
def sortScoresDesc (l : List (String × ℚ)) : List (String × ℚ) :=
  l.foldl (fun acc a => insertDescQ a acc) []

/-- Python `tuple(sorted([a, b]))` on two strings. -/
def sortPairStr (a b : String) : String × String :=
  if b < a then (b, a) else (a, b)

/-- Embedding of `find_best_person_match_learned`: score and rank persons,
look up the pair threshold of the top two (taking `max` with the base
threshold), refuse a top score below the effective threshold, and damp the
confidence when the margin to the runner-up is under 0.1. -/
def find_best_person_match_learned (e : List ℚ)
    (persons : List (String × PersonEmbeddingData))
    (pairThresholds : List ((String × String) × ℚ))
    (baseThreshold : ℚ) : Option String × ℚ × ℚ :=
  match sortScoresDesc (learnedScores e persons) with
  | [] => (none, 0, 0)
  | best :: rest =>
      let effectiveThreshold :=
        match rest with
        | [] => baseThreshold
        | second :: _ =>
            match lookupAssoc (sortPairStr best.1 second.1) pairThresholds with
            | some t => max baseThreshold t
            | none => baseThreshold
      if best.2 < effectiveThreshold then (none, 0, 0)
      else
        let confidence :=
          match rest with
          | [] => best.2
          | second :: _ =>
              let margin := best.2 - second.2
              if margin < 1/10 then best.2 * (7/10 + 3 * margin) else best.2
        (some best.1, best.2, confidence)

/-- Modelled from the claim C6's words: identical scoring, ranking and
confidence (shared with the source model, whose formulas the claim repeats
verbatim), but the effective threshold is *the pair threshold itself* when
the pair `(p1, p2)` is present, with no `max` against the base 0.65. -/
def findBestMatchSpecC6 (e : List ℚ)
    (persons : List (String × PersonEmbeddingData))
    (pairThresholds : List ((String × String) × ℚ))
    (baseThreshold : ℚ) : Option String × ℚ × ℚ :=
  match sortScoresDesc (learnedScores e persons) with
  | [] => (none, 0, 0)
  | best :: rest =>
      let effectiveThreshold :=
        match rest with
        | [] => baseThreshold
        | second :: _ =>
            match lookupAssoc (sortPairStr best.1 second.1) pairThresholds with
            | some t => t
            | none => baseThreshold
      if best.2 < effectiveThreshold then (none, 0, 0)
      else
        let confidence :=
          match rest with
          | [] => best.2
          | second :: _ =>
              let margin := best.2 - second.2
              if margin < 1/10 then best.2 * (7/10 + 3 * margin) else best.2
        (some best.1, best.2, confidence)

/-! ## Face assignment endpoint (`api/faces.py`, `assign_face_to_person`) -/

/-- A row of the `person_pair_thresholds` table. -/
structure PairThresholdRow where
  personAId : String
  personBId : String
  threshold : ℚ
  correctionCount : Nat
deriving DecidableEq, Repr

/-- The database slice the face endpoints touch.  `negatives` rows are the
`(face_id, person_id)` pairs (unique by table constraint). -/
structure FacesDb where
  faces : List FaceRec
  persons : List PersonRec
  negatives : List (String × String)
  pairThresholds : List PairThresholdRow
deriving DecidableEq, Repr

/-- Sum of rational vectors (componentwise; all embeddings share a length). -/
def sumVecs : List (List ℚ) → List ℚ
  | [] => []
  | [v] => v
  | v :: w :: rest => ((sumVecs (w :: rest)).zip v).map (fun p => p.1 + p.2)

/-- Componentwise mean (`np.mean(embeddings, axis=0)`). -/
def centroidVec (embs : List (List ℚ)) : List ℚ :=
  (sumVecs embs).map (fun x => x / embs.length)

/-- The faces currently assigned to a person (`WHERE person_id = ?`; every
modelled face row carries an embedding, matching `embedding IS NOT NULL`). -/
def facesOfPerson (pid : String) (faces : List FaceRec) : List FaceRec :=
  faces.filter (fun f => f.personId = some pid)

/-- The best-so-far fold of `select_best_thumbnail`: track the first face
whose similarity to the centroid strictly exceeds every earlier one. -/
def bestFaceFold (c : List ℚ) : List FaceRec → Option String × ℚ → Option String × ℚ
  | [], acc => acc
  | f :: rest, acc =>
      let s := compute_face_similarity f.embedding c
      bestFaceFold c rest (if s > acc.2 then (some f.faceId, s) else acc)

/-- Embedding of `select_best_thumbnail`: among the person's faces, the one
whose similarity to the unweighted mean embedding is highest (first wins on
ties, starting from a best of −1); a single face is returned directly and no
face yields `none`.  The similarity ordering is taken on unit-norm face
embeddings against the fixed centroid, on which the source's norm divisions
are a strictly monotone rescaling and select the same face. -/
def select_best_thumbnail (pid : String) (faces : List FaceRec) : Option String :=
  let fs := facesOfPerson pid faces
  match fs with
  | [] => none
  | [f] => some f.faceId
  | _ =>
      let c := centroidVec (fs.map (fun f => f.embedding))
      (bestFaceFold c fs (none, -1)).1

/-- The claim's “face closest to that person's centroid”: `tid` names one of
the person's faces, and no other face of that person is more similar to the
person's mean embedding. -/
def nearestToCentroid (pid : String) (faces : List FaceRec) (tid : String) : Prop :=
  let fs := facesOfPerson pid faces
  let c := centroidVec (fs.map (fun f => f.embedding))
  ∃ f ∈ fs, f.faceId = tid ∧
    ∀ g ∈ fs, compute_face_similarity g.embedding c ≤ compute_face_similarity f.embedding c

/-- Update the persons rows matching `pid` (SQL `UPDATE ... WHERE
person_id = pid`). -/
def updatePersonRow (pid : String) (upd : PersonRec → PersonRec)
    (persons : List PersonRec) : List PersonRec :=
  persons.map (fun p => if p.personId = pid then upd p else p)

/-- The learning-signal block of `assign_face_to_person`: on a genuine
reassignment insert the `(face_id, previous)` negative (idempotently) and
bump or create the sorted pair-threshold row. -/
def recordLearningSignals (faceId : String) (previous requested : Option String)
    (db : FacesDb) : FacesDb :=
  match previous, requested with
  | some prev, some req =>
      if prev = req then db
      else
        let negatives :=
          if db.negatives.contains (faceId, prev) then db.negatives
          else db.negatives ++ [(faceId, prev)]
        let pair := sortPairStr prev req
        let pairThresholds :=
          match db.pairThresholds.find? (fun r =>
              r.personAId = pair.1 && r.personBId = pair.2) with
          | some _ =>
              db.pairThresholds.map (fun r =>
                if r.personAId = pair.1 && r.personBId = pair.2 then
                  { r with threshold := min (r.threshold + 2/100) (85/100),
                           correctionCount := r.correctionCount + 1 }
                else r)
          | none =>
              db.pairThresholds ++
                [{ personAId := pair.1, personBId := pair.2,
                   threshold := 70/100, correctionCount := 1 }]
        { db with negatives := negatives, pairThresholds := pairThresholds }
  | _, _ => db

/-- Embedding of `assign_face_to_person`: look the face up (404 → `none`),
verify a non-null target person exists (404 → `none`), record learning
signals, set the face to the target with `manual` provenance and confidence
1.0, recompute the target's and the previous person's `face_count`, and
re-pick both persons' thumbnails (the previous person's only when it still
has a face to pick).  `reanalyze_after_retag` only reads. -/
def assign_face_to_person (faceId : String) (requestPersonId : Option String)
    (nowMs : Int) (db : FacesDb) : Option FacesDb :=
  match db.faces.find? (fun f => f.faceId = faceId) with
  | none => none
  | some faceRow =>
      let targetOk :=
        match requestPersonId with
        | none => true
        | some pid => (db.persons.find? (fun p => p.personId = pid)).isSome
      if !targetOk then none
      else
        let previous := faceRow.personId
        let db1 := recordLearningSignals faceId previous requestPersonId db
        let faces2 := db1.faces.map (fun f =>
          if f.faceId = faceId then
            { f with personId := requestPersonId,
                     assignmentSource := some "manual",
                     assignmentConfidence := some 1,
                     assignedAtMs := some nowMs }
          else f)
        let db2 := { db1 with faces := faces2 }
        let db3 :=
          match requestPersonId with
          | some req =>
              { db2 with persons := (updatePersonRow req
                  (fun p => { p with faceCount := countFacesOf req faces2 }) db2.persons) }
          | none => db2
        let db4 :=
          match previous with
          | some prev =>
              if requestPersonId ≠ some prev then
                let persons5 := (updatePersonRow prev
                  (fun p => { p with faceCount := countFacesOf prev faces2 }) db3.persons)
                let persons6 :=
                  match select_best_thumbnail prev faces2 with
                  | some t => (updatePersonRow prev
                      (fun p => { p with thumbnailFaceId := some t }) persons5)
                  | none => persons5
                { db3 with persons := persons6 }
              else db3
          | none => db3
        let db5 :=
          match requestPersonId with
          | some req =>
              match select_best_thumbnail req faces2 with
              | some t =>
                  { db4 with persons := (updatePersonRow req
                      (fun p => { p with thumbnailFaceId := some t }) db4.persons) }
              | none => db4
          | none => db4
        some db5

/-! ## Search visual-branch fusion (`api/search.py`, lines 481–547)

The per-hit loop over shard matches: the similarity floor, the color
adjustment, the detection fusion that mutates the cached detection entry,
the non-detection penalty, and the final append of the (possibly boosted)
detection entries to the result list.  A search result is reduced to its
key and score; the detection cache maps `(video_id, timestamp_ms)` to the
detection score `0.5 + 0.5 * max_confidence`. -/

/-- One CLIP shard hit joined with its frame row. -/
structure ClipHit where
  videoId : String
  timestampMs : Nat
  similarity : ℚ
  frameColors : List String
deriving DecidableEq, Repr

/-- An emitted visual result (key and score). -/
structure VisResult where
  videoId : String
  timestampMs : Nat
  score : ℚ
deriving DecidableEq, Repr

/-- The `(video_id, timestamp_ms)` key of a CLIP hit. -/
def hitKey (h : ClipHit) : String × Nat := (h.videoId, h.timestampMs)

/-- The `(video_id, timestamp_ms)` key of an emitted result. -/
def resKey (r : VisResult) : String × Nat := (r.videoId, r.timestampMs)

/-- In-place value update of an association list (the mutation of
`det_result.score`; the entry keeps its position). -/
def updateAssoc {κ α : Type} [DecidableEq κ] (k : κ) (v : α) :
    List (κ × α) → List (κ × α) :=
  fun l => l.map (fun p => if p.1 = k then (k, v) else p)

/-- The color-adjusted similarity of a hit: `+0.15` capped at 1 on a color
match, `× 0.7` when a color was asked for but absent, unchanged without a
query color. -/
def colorAdjustedSim (queryColor : Option String) (hit : ClipHit) : ℚ :=
  match queryColor with
  | some c =>
      if hit.frameColors.contains c then min 1 (hit.similarity + 15/100)
      else hit.similarity * (7/10)
  | none => hit.similarity

/-- Whether the query color matched the hit's frame colors. -/
def colorMatched (queryColor : Option String) (hit : ClipHit) : Bool :=
  match queryColor with
  | some c => hit.frameColors.contains c
  | none => false

/-- Process one CLIP hit against `(detection cache, CLIP results)`:
drop it under the similarity floor (0.22 with an object query, else 0.18,
checked on the raw similarity); then either fuse into the cached detection
entry (`min(1, max(clip, det) + 0.1 (+0.1 on color match))`, suppressing
the pure-CLIP result) or emit a pure-CLIP result, penalized by `× 0.6`
when an object query is active. -/
def processClipHit (queryColor : Option String) (objectQuery : Bool)
    (st : List ((String × Nat) × ℚ) × List VisResult) (hit : ClipHit) :
    List ((String × Nat) × ℚ) × List VisResult :=
  let threshold : ℚ := if objectQuery then 22/100 else 18/100
  if hit.similarity < threshold then st
  else
    let similarity := colorAdjustedSim queryColor hit
    let key := hitKey hit
    match lookupAssoc key st.1 with
    | some detScore =>
        let boosted := max similarity detScore + 1/10
        let boosted := if colorMatched queryColor hit then boosted + 1/10 else boosted
        (updateAssoc key (min 1 boosted) st.1, st.2)
    | none =>
        let similarity := if objectQuery then similarity * (6/10) else similarity
        (st.1, st.2 ++ [{ videoId := hit.videoId, timestampMs := hit.timestampMs,
                          score := similarity }])

/-- The visual branch's emitted moments: fold every CLIP hit through
`processClipHit`, then append the detection entries (fused or not) to the
pure-CLIP results. -/
def visualFusion (queryColor : Option String) (objectQuery : Bool)
    (detCache : List ((String × Nat) × ℚ)) (hits : List ClipHit) :
    List VisResult :=
  let st := hits.foldl (processClipHit queryColor objectQuery) (detCache, [])
  st.2 ++ st.1.map (fun p =>
    { videoId := p.1.1, timestampMs := p.1.2, score := p.2 })

/-! ## Concrete demonstration inputs for the claim theorems -/

/-- A detector oracle returning one confident detection per image. -/
def carOracle : String → List (String × ℚ) := fun _ => [("car", 9/10)]

/-- Frame extraction of a two-frame video at `frame_interval_seconds = 3.0`. -/
def demoExtract3s : List String × List FrameRow :=
  extractingFramesStage "v" "video" 3 (fun _ => none) 2

/-- Frame extraction of an item with a single frame (a photo, or a video
shorter than one frame interval) at the default interval. -/
def demoExtract1Frame : List String × List FrameRow :=
  extractingFramesStage "v" "video" 2 (fun _ => none) 1

/-- Frame extraction of a two-frame video at the default interval. -/
def demoExtract2Frames : List String × List FrameRow :=
  extractingFramesStage "v" "video" 2 (fun _ => none) 2

/-- The primary stage list of a video under the deep preset with face
recognition off. -/
def demoStages : List String := get_primary_stage_list "video" false "deep"

/-- A fresh queued pipeline state. -/
def freshPipeState : PipeState :=
  { status := "QUEUED", lastCompletedStage := none, progress := 0, doneWork := [] }

/-- Database state for the crash-repair evaluation: one media row and one
video row interrupted in `DETECTING_FACES`, one video row interrupted in
`EMBEDDING`, and the in-flight job row of the first video. -/
def repairDemoDb : EngineDb :=
  { media := [{ mediaId := "m1", libraryId := "l", path := "/p/a.mp4",
                mediaType := "video", fileSize := 1, fingerprint := "f",
                status := "DETECTING_FACES", progress := 1/2,
                errorCode := none, errorMessage := none }],
    videos := [{ videoId := "m1", libraryId := "l", path := "/p/a.mp4",
                 mediaType := "video", fileSize := 1, fingerprint := "f",
                 status := "DETECTING_FACES", progress := 1/2,
                 errorCode := none, errorMessage := none,
                 lastCompletedStage := some "DETECTING" },
               { videoId := "m2", libraryId := "l", path := "/p/b.mp4",
                 mediaType := "video", fileSize := 1, fingerprint := "f2",
                 status := "EMBEDDING", progress := 1/2,
                 errorCode := none, errorMessage := none,
                 lastCompletedStage := some "EMBEDDING" }],
    jobs := [{ jobId := "j1", videoId := "m1", status := "DETECTING_FACES",
               errorMessage := none }] }

/-- A face of item `V` assigned manually to person `P`, plus the matching
person row — the state before a face-stage re-run that detects no faces. -/
def staleCountFaces : List FaceRec :=
  [{ faceId := "F", videoId := "V", personId := some "P", embedding := [1, 0],
     assignmentSource := some "manual", assignmentConfidence := some 1,
     assignedAtMs := some 0 }]

/-- The person row whose `face_count` caches the assignment above. -/
def staleCountPersons : List PersonRec :=
  [{ personId := "P", faceCount := 1, thumbnailFaceId := some "F",
     recognitionMode := "average" }]

/-- A tiny filesystem with one known folder. -/
def demoFs : FileSystem :=
  [("/pics", [{ path := "/pics/a.jpg", ext := ".jpg", bytes := [97] }])]

/-- A catalog holding rows of the scanned library: one `DONE` row and one
`FAILED` row (the latter would be requeued, and both deleted as unseen, if
reconciliation ran). -/
def demoCat : Catalog :=
  { media := [{ mediaId := "m1", libraryId := "lib1", path := "/pics/old.jpg",
                mediaType := "photo", fileSize := 3, fingerprint := "abc",
                status := "DONE", progress := 1, errorCode := none,
                errorMessage := none },
              { mediaId := "m2", libraryId := "lib1", path := "/pics/bad.jpg",
                mediaType := "photo", fileSize := 3, fingerprint := "def",
                status := "FAILED", progress := 0,
                errorCode := some "FFMPEG_ERROR", errorMessage := some "x" }],
    videos := [] }

/-- A face row assigned manually to person `A` — input of the reassignment
endpoint demo. -/
def c7FaceF : FaceRec :=
  { faceId := "F", videoId := "v1", personId := some "A", embedding := [1, 0],
    assignmentSource := some "manual", assignmentConfidence := some 1,
    assignedAtMs := some 1 }

/-- A second face of person `A`, auto-assigned. -/
def c7FaceG : FaceRec :=
  { faceId := "G", videoId := "v1", personId := some "A", embedding := [0, 1],
    assignmentSource := some "auto", assignmentConfidence := none,
    assignedAtMs := some 2 }

/-- Two persons `A` (two faces, thumbnail `F`) and `B` (empty), no learning
rows yet — the state before reassigning face `F` from `A` to `B`. -/
def c7DemoDb : FacesDb :=
  { faces := [c7FaceF, c7FaceG],
    persons := [{ personId := "A", faceCount := 2, thumbnailFaceId := some "F",
                  recognitionMode := "average" },
                { personId := "B", faceCount := 0, thumbnailFaceId := none,
                  recognitionMode := "average" }],
    negatives := [],
    pairThresholds := [] }

/-! ## Claim theorems -/

/-- C1: the claim states that after the `EMBEDDING` stage the vector shard
holds exactly one vector per frame row, ordinal `i` matching `frame_index
i`, with grid thumbnails contributing no vectors (a one-frame item gives a
shard of size 1).  The code is wrong: the stage lists
`sorted(glob("frame_*.jpg"))` without the `_grid` filter used everywhere
else, so the grid thumbnail `frame_000001_grid.jpg` is embedded too — a
one-frame item yields a shard of size 2, and for a two-frame item shard
ordinal 1 holds the grid image while frame_index 1 is `frame_000002.jpg`. -/
theorem embedding_shard_includes_grid_thumbnail :
    embeddingShard (fun s => s) demoExtract1Frame.1 =
      ["frame_000001.jpg", "frame_000001_grid.jpg"] ∧
    demoExtract1Frame.2.length = 1 ∧
    (embeddingStageFrames demoExtract2Frames.1).getD 1 "" = "frame_000001_grid.jpg" ∧
    (demoExtract2Frames.2.map FrameRow.thumbnailPath).getD 1 "" = "frame_000002.jpg" ∧
    (embeddingShard (fun s => s) demoExtract2Frames.1).length = 3 ∧
    demoExtract2Frames.2.length = 2 := by
  with_unfolding_all decide

/-- C2: the claim states that startup repair requeues every media/video row
in any intermediate stage (`DETECTING_FACES` included) and fails every
in-flight job.  The code is wrong on three counts: its `PROCESSING_STATES`
list omits `DETECTING_FACES`, it only updates the `videos` table and never
the `media` table, and its job cleanup matches the statuses `running` and
`processing`, which no job row ever has (jobs carry `PENDING`, stage names,
`DONE`, `FAILED`, `CANCELLED`).  Evaluating the repair on a crashed state:
the `DETECTING_FACES` video row, the media row and the in-flight job row
all come out unchanged; only the `EMBEDDING` video row is requeued. -/
theorem repair_consistency_misses_rows :
    (repair_consistency repairDemoDb).videos.map VideoRow.status =
      ["DETECTING_FACES", "QUEUED"] ∧
    (repair_consistency repairDemoDb).media = repairDemoDb.media ∧
    (repair_consistency repairDemoDb).jobs = repairDemoDb.jobs := by
  with_unfolding_all decide

/-- C3: the claim states that resume-after-interrupt reproduces the
uninterrupted terminal state, resting on `last_completed_stage` only ever
naming a stage whose work completed.  The code is wrong: `process_video`
writes `last_completed_stage = stage` *before* running the stage body, so a
crash mid-stage (here: after the `EMBEDDING` status write, before the shard
is written — atomic write 5 of the run) leaves `last_completed_stage =
EMBEDDING` with no embedding artifact; after startup repair the rerun
resumes at `DETECTING` and terminates `DONE` without ever doing the
`EMBEDDING` work, unlike the uninterrupted run. -/
theorem resume_skips_interrupted_stage :
    (runPipelineInterrupted demoStages freshPipeState 5).lastCompletedStage =
      some "EMBEDDING" ∧
    (runPipelineInterrupted demoStages freshPipeState 5).doneWork =
      ["EXTRACTING_FRAMES"] ∧
    (runPipeline demoStages
      (repairItemState (runPipelineInterrupted demoStages freshPipeState 5))).status =
      "DONE" ∧
    (runPipeline demoStages
      (repairItemState (runPipelineInterrupted demoStages freshPipeState 5))).doneWork =
      ["EXTRACTING_FRAMES", "DETECTING"] ∧
    (runPipeline demoStages freshPipeState).doneWork =
      ["EXTRACTING_FRAMES", "EMBEDDING", "DETECTING"] := by
  with_unfolding_all decide

/-- C4: the claim states every detection row's `timestamp_ms` equals the
referenced frame row's `timestamp_ms`, i.e. `frame_index *
frame_interval_seconds * 1000`.  The code is wrong: the `DETECTING` stage
hard-codes `timestamp_ms = idx * 2000`, so with `frame_interval_seconds =
3.0` the detection referencing frame row 1 carries 2000 while that frame
row carries 3000 (the confidence ≥ 0.25 filter and the
delete-then-insert transaction do behave as claimed). -/
theorem detection_timestamp_hardcoded_2000 :
    detectingStage "v" carOracle demoExtract3s.1 demoExtract3s.2 [] =
      [{ videoId := "v", frameId := "v_frame_000000", timestampMs := 0,
         label := "car", confidence := 9/10 },
       { videoId := "v", frameId := "v_frame_000001", timestampMs := 2000,
         label := "car", confidence := 9/10 }] ∧
    demoExtract3s.2.map FrameRow.timestampMs = [0, 3000] := by
  with_unfolding_all decide

/-- C5: the claim states `face_count` always equals the number of assigned
face rows after a pipeline face-stage rewrite, including for persons whose
faces were deleted and not re-inserted.  The code is wrong: `_save_faces`
recomputes counts only when at least one *new* face was auto-recognized,
and then only for persons appearing among the item's new rows.  Evaluating
the transaction on an item whose manually assigned face disappears: the
face rows become empty, yet person `P` keeps `face_count = 1`. -/
theorem save_faces_keeps_stale_face_count :
    (saveFacesTransaction "V" [] staleCountFaces staleCountPersons).1 = [] ∧
    (saveFacesTransaction "V" [] staleCountFaces staleCountPersons).2 =
      staleCountPersons ∧
    countFacesOf "P" (saveFacesTransaction "V" [] staleCountFaces staleCountPersons).1
      = 0 := by
  with_unfolding_all decide

/-- C9 counterexample: on the one-byte file `b"a"` the code hashes
`1:b'a':b''` (empty tail) while the claim's overlapping-read construction
hashes `1:b'a':b'a'`; the two 16-hex fingerprints differ. -/
theorem fingerprint_tail_counterexample :
    compute_fingerprint [97] = "095c737d412bd43e" ∧
    fingerprintClaimedC9 [97] = "88df4fd458f68e49" ∧
    compute_fingerprint [97] ≠ fingerprintClaimedC9 [97] := by
  with_unfolding_all decide

/-- C9 (amended): for every file, the fingerprint is the first 16 hex
characters of the SHA-256 of the string built from the file size, the first
64 KiB of bytes, and — only when the file is strictly larger than 64 KiB —
the last 64 KiB of bytes, the tail rendering as the empty byte string
otherwise (the reads never overlap); every empty file maps to one fixed
sentinel fingerprint. -/
theorem compute_fingerprint_amended (file : List Nat) :
    compute_fingerprint file = fingerprintAmendedC9 file := by
  unfold compute_fingerprint fingerprintAmendedC9
  by_cases h0 : file.length = 0
  · simp [h0]
  · by_cases h : 65536 < file.length
    · have hlen : (file.drop (file.length - 65536)).length ≤ 65536 := by
        rw [List.length_drop]
        omega
      simp [h0, h, List.take_of_length_le hlen]
    · simp [h0, h]

/-- A successful association lookup returns the value of some list entry. -/
theorem lookupAssoc_mem {κ α : Type} [DecidableEq κ] (k : κ) (l : List (κ × α))
    (v : α) (h : lookupAssoc k l = some v) : ∃ p ∈ l, p.2 = v := by
  induction l with
  | nil => simp [lookupAssoc] at h
  | cons hd tl ih =>
      obtain ⟨k2, v2⟩ := hd
      simp only [lookupAssoc] at h
      by_cases hk : k2 = k
      · refine ⟨(k2, v2), List.mem_cons_self _ _, ?_⟩
        simpa [hk] using h
      · rw [if_neg hk] at h
        obtain ⟨p, hp, hv⟩ := ih h
        exact ⟨p, List.mem_cons_of_mem _ hp, hv⟩

/-- C6: auto-recognition matches the claim's description — base scores by
recognition mode (`average` / `reference_only` / `weighted`), the negative
penalty, the pair or base-0.65 effective threshold, the at-least-threshold
acceptance of the top-scoring person, and the margin-damped confidence —
provided every stored pair threshold is at least the base 0.65 (the table's
invariant: rows are created at 0.70 and only ever bumped toward 0.85), since
the code takes `max(base, pair)` where the claim reads the pair threshold
directly.  `cos` in the claim denotes the source's `compute_face_similarity`
scale. -/
theorem find_best_person_match_learned_spec (e : List ℚ)
    (persons : List (String × PersonEmbeddingData))
    (pairThresholds : List ((String × String) × ℚ))
    (h : ∀ p ∈ pairThresholds, 13/20 ≤ p.2) :
    find_best_person_match_learned e persons pairThresholds (13/20) =
      findBestMatchSpecC6 e persons pairThresholds (13/20) := by
  unfold find_best_person_match_learned findBestMatchSpecC6
  cases hs : sortScoresDesc (learnedScores e persons) with
  | nil => rfl
  | cons best rest =>
      cases rest with
      | nil => rfl
      | cons second rest2 =>
          cases hl : lookupAssoc (sortPairStr best.1 second.1) pairThresholds with
          | none => simp only [hl]
          | some t =>
              obtain ⟨p, hp, hv⟩ := lookupAssoc_mem _ _ _ hl
              have hbt : (13/20 : ℚ) ≤ t := hv ▸ h p hp
              simp only [hl, max_eq_right hbt]

/-- C6 witness: a two-person map with a stored pair threshold 0.70 ≥ 0.65;
the code function and the claim's description agree on it. -/
theorem find_best_person_match_learned_spec_witness :
    (∀ p ∈ ([(("alice", "bob"), (7 : ℚ)/10)] : List ((String × String) × ℚ)),
        13/20 ≤ p.2) ∧
    find_best_person_match_learned [1, 0]
        [("alice", ⟨"average", some [1, 0], [], []⟩),
         ("bob", ⟨"average", some [0, 1], [], []⟩)]
        [(("alice", "bob"), (7 : ℚ)/10)] (13/20) =
      findBestMatchSpecC6 [1, 0]
        [("alice", ⟨"average", some [1, 0], [], []⟩),
         ("bob", ⟨"average", some [0, 1], [], []⟩)]
        [(("alice", "bob"), (7 : ℚ)/10)] (13/20) :=
  ⟨by with_unfolding_all decide,
   find_best_person_match_learned_spec [1, 0]
     [("alice", ⟨"average", some [1, 0], [], []⟩),
      ("bob", ⟨"average", some [0, 1], [], []⟩)]
     [(("alice", "bob"), (7 : ℚ)/10)]
     (by with_unfolding_all decide)⟩

/-- An association lookup is the value of the first entry holding the key. -/
theorem lookupAssoc_eq_filter_head {κ α : Type} [DecidableEq κ]
    (k : κ) (l : List (κ × α)) :
    lookupAssoc k l = ((l.filter (fun p => p.1 = k)).head?).map Prod.snd := by
  induction l with
  | nil => rfl
  | cons hd tl ih =>
      obtain ⟨k1, v1⟩ := hd
      by_cases h1 : k1 = k
      · simp [lookupAssoc, List.filter, h1]
      · simp [lookupAssoc, List.filter, h1, ih]

/-- Updating one key rewrites exactly the entries filtered at that key. -/
theorem filter_updateAssoc_eq {κ α : Type} [DecidableEq κ]
    (k : κ) (v : α) (l : List (κ × α)) :
    (updateAssoc k v l).filter (fun p => p.1 = k) =
      (l.filter (fun p => p.1 = k)).map (fun _ => (k, v)) := by
  induction l with
  | nil => rfl
  | cons hd tl ih =>
      obtain ⟨k1, v1⟩ := hd
      by_cases h1 : k1 = k
      · simp [updateAssoc, List.filter, h1] at ih ⊢
        exact ih
      · simp [updateAssoc, List.filter, h1] at ih ⊢
        exact ih

/-- Updating one key leaves the entries filtered at another key unchanged. -/
theorem filter_updateAssoc_ne {κ α : Type} [DecidableEq κ]
    (k key : κ) (v : α) (l : List (κ × α)) (h : k ≠ key) :
    (updateAssoc k v l).filter (fun p => p.1 = key) =
      l.filter (fun p => p.1 = key) := by
  induction l with
  | nil => rfl
  | cons hd tl ih =>
      obtain ⟨k1, v1⟩ := hd
      by_cases h1 : k1 = k
      · subst h1
        simp only [updateAssoc, List.map_cons, if_pos rfl, List.filter_cons]
        simp only [updateAssoc] at ih
        simp [h, ih]
      · by_cases h2 : k1 = key
        · subst h2
          simp only [updateAssoc, List.map_cons, if_neg h1, List.filter_cons]
          simp only [updateAssoc] at ih
          simp [ih]
        · simp only [updateAssoc, List.map_cons, if_neg h1, List.filter_cons]
          simp only [updateAssoc] at ih
          simp [h2, ih]

/-- A hit below the object-query similarity floor changes nothing. -/
theorem processClipHit_below (qc : Option String)
    (st : List ((String × Nat) × ℚ) × List VisResult) (hit : ClipHit)
    (hth : hit.similarity < 22/100) :
    processClipHit qc true st hit = st := by
  simp [processClipHit, hth]

/-- A passing hit whose key is cached fuses into the detection entry and
emits no pure-CLIP result. -/
theorem processClipHit_fuses (qc : Option String)
    (st : List ((String × Nat) × ℚ) × List VisResult) (hit : ClipHit) (d : ℚ)
    (hpass : ¬ hit.similarity < 22/100)
    (hl : lookupAssoc (hitKey hit) st.1 = some d) :
    processClipHit qc true st hit =
      (updateAssoc (hitKey hit)
        (min 1 (max (colorAdjustedSim qc hit) d + 1/10 +
          (if colorMatched qc hit then 1/10 else 0))) st.1, st.2) := by
  by_cases hcm : colorMatched qc hit
  · simp [processClipHit, hpass, hl, hcm]
  · simp [processClipHit, hpass, hl, hcm]

/-- A passing hit with no cached entry at its key is emitted as a
pure-CLIP result, penalized by 0.6 under an object query. -/
theorem processClipHit_pure (qc : Option String)
    (st : List ((String × Nat) × ℚ) × List VisResult) (hit : ClipHit)
    (hpass : ¬ hit.similarity < 22/100)
    (hl : lookupAssoc (hitKey hit) st.1 = none) :
    processClipHit qc true st hit =
      (st.1, st.2 ++
        [(⟨hit.videoId, hit.timestampMs, colorAdjustedSim qc hit * (6/10)⟩ : VisResult)]) := by
  simp [processClipHit, hpass, hl]

/-- Processing a hit of a different key changes neither the cache entries
nor the emitted results at that key. -/
theorem processClipHit_preserves_other (qc : Option String)
    (st : List ((String × Nat) × ℚ) × List VisResult) (h2 : ClipHit)
    (key : String × Nat) (hne : hitKey h2 ≠ key) :
    ((processClipHit qc true st h2).1.filter (fun p => p.1 = key) =
       st.1.filter (fun p => p.1 = key)) ∧
    ((processClipHit qc true st h2).2.filter (fun r => resKey r = key) =
       st.2.filter (fun r => resKey r = key)) := by
  by_cases hth : h2.similarity < 22/100
  · rw [processClipHit_below qc st h2 hth]
    exact ⟨rfl, rfl⟩
  · cases hl : lookupAssoc (hitKey h2) st.1 with
    | some d =>
        rw [processClipHit_fuses qc st h2 d hth hl]
        exact ⟨filter_updateAssoc_ne _ _ _ _ hne, rfl⟩
    | none =>
        rw [processClipHit_pure qc st h2 hth hl]
        refine ⟨rfl, ?_⟩
        rw [List.filter_append]
        have hk : resKey ⟨h2.videoId, h2.timestampMs, colorAdjustedSim qc h2 * (6/10)⟩ =
            hitKey h2 := rfl
        simp [hk, hne]

/-- Folding hits that all carry other keys preserves both the cache entries
and the results at the key of interest. -/
theorem foldClipHits_preserves_other (qc : Option String)
    (hits : List ClipHit) (key : String × Nat)
    (hall : ∀ h2 ∈ hits, hitKey h2 ≠ key)
    (st : List ((String × Nat) × ℚ) × List VisResult) :
    ((hits.foldl (processClipHit qc true) st).1.filter (fun p => p.1 = key) =
       st.1.filter (fun p => p.1 = key)) ∧
    ((hits.foldl (processClipHit qc true) st).2.filter (fun r => resKey r = key) =
       st.2.filter (fun r => resKey r = key)) := by
  induction hits generalizing st with
  | nil => exact ⟨rfl, rfl⟩
  | cons h2 tl ih =>
      have hstep := processClipHit_preserves_other qc st h2 key
        (hall h2 (List.mem_cons_self _ _))
      have hrest := ih (fun x hx => hall x (List.mem_cons_of_mem _ hx))
        (processClipHit qc true st h2)
      exact ⟨hrest.1.trans hstep.1, hrest.2.trans hstep.2⟩

/-- Filtering the emitted detection entries at a key mirrors filtering the
cache at that key. -/
theorem filter_cacheToResults (cache : List ((String × Nat) × ℚ))
    (key : String × Nat) :
    ((cache.map (fun p => (⟨p.1.1, p.1.2, p.2⟩ : VisResult))).filter
        (fun r => resKey r = key)) =
      (cache.filter (fun p => p.1 = key)).map
        (fun p => (⟨p.1.1, p.1.2, p.2⟩ : VisResult)) := by
  rw [List.filter_map]
  have hcomp : ((fun r => decide (resKey r = key)) ∘
      (fun (p : (String × Nat) × ℚ) => (⟨p.1.1, p.1.2, p.2⟩ : VisResult))) =
      fun p => decide (p.1 = key) := by
    funext p
    simp [Function.comp, resKey]
  rw [hcomp]

/-- C8: in the visual branch with an active object query, a CLIP hit whose
key `(video_id, timestamp_ms)` has a detection-cache entry of score `d`
makes the emitted score at that key exactly
`min(1, max(clip_sim, d) + 0.1 + (0.1 on color match))` where `clip_sim`
is the color-adjusted similarity (`+0.15` capped at 1 on color match,
`× 0.7` otherwise), with no separate pure-CLIP result at that key; a
passing CLIP hit with no cache entry at its key is emitted with score
`clip_sim * 0.6`.  The hit carries its key exactly once in the batch and
passes the 0.22 object-query floor. -/
theorem visual_fusion_object_query (queryColor : Option String)
    (detCache : List ((String × Nat) × ℚ)) (pre post : List ClipHit)
    (hit : ClipHit) (d : ℚ)
    (hpass : ¬ hit.similarity < 22/100)
    (hothers : ∀ h2 ∈ pre ++ post, hitKey h2 ≠ hitKey hit) :
    (detCache.filter (fun p => p.1 = hitKey hit) = [(hitKey hit, d)] →
      (visualFusion queryColor true detCache (pre ++ hit :: post)).filter
          (fun r => resKey r = hitKey hit) =
        [(⟨hit.videoId, hit.timestampMs,
           min 1 (max (colorAdjustedSim queryColor hit) d + 1/10 +
             (if colorMatched queryColor hit then 1/10 else 0))⟩ : VisResult)]) ∧
    (detCache.filter (fun p => p.1 = hitKey hit) = [] →
      (visualFusion queryColor true detCache (pre ++ hit :: post)).filter
          (fun r => resKey r = hitKey hit) =
        [(⟨hit.videoId, hit.timestampMs,
           colorAdjustedSim queryColor hit * (6/10)⟩ : VisResult)]) := by
  have hpre : ∀ h2 ∈ pre, hitKey h2 ≠ hitKey hit := fun x hx =>
    hothers x (List.mem_append_left _ hx)
  have hpost : ∀ h2 ∈ post, hitKey h2 ≠ hitKey hit := fun x hx =>
    hothers x (List.mem_append_right _ hx)
  unfold visualFusion
  rw [List.foldl_append]
  have hfold1 := foldClipHits_preserves_other queryColor pre (hitKey hit)
    hpre (detCache, [])
  constructor
  · intro hcache
    have hc1 := hfold1.1.trans hcache
    have hr1 := hfold1.2
    have hl1 : lookupAssoc (hitKey hit)
        (pre.foldl (processClipHit queryColor true) (detCache, [])).1 = some d := by
      rw [lookupAssoc_eq_filter_head, hc1]
      rfl
    rw [List.foldl_cons, processClipHit_fuses queryColor _ hit d hpass hl1]
    have hfold2 := foldClipHits_preserves_other queryColor post (hitKey hit) hpost
      (updateAssoc (hitKey hit)
        (min 1 (max (colorAdjustedSim queryColor hit) d + 1/10 +
          (if colorMatched queryColor hit then 1/10 else 0)))
        (pre.foldl (processClipHit queryColor true) (detCache, [])).1,
       (pre.foldl (processClipHit queryColor true) (detCache, [])).2)
    rw [List.filter_append, hfold2.2, filter_cacheToResults, hfold2.1,
      filter_updateAssoc_eq, hc1, hr1]
    rfl
  · intro hcache
    have hc1 := hfold1.1.trans hcache
    have hr1 := hfold1.2
    have hl1 : lookupAssoc (hitKey hit)
        (pre.foldl (processClipHit queryColor true) (detCache, [])).1 = none := by
      rw [lookupAssoc_eq_filter_head, hc1]
      rfl
    rw [List.foldl_cons, processClipHit_pure queryColor _ hit hpass hl1]
    have hfold2 := foldClipHits_preserves_other queryColor post (hitKey hit) hpost
      ((pre.foldl (processClipHit queryColor true) (detCache, [])).1,
       (pre.foldl (processClipHit queryColor true) (detCache, [])).2 ++
         [(⟨hit.videoId, hit.timestampMs,
            colorAdjustedSim queryColor hit * (6/10)⟩ : VisResult)])
    rw [List.filter_append, hfold2.2, filter_cacheToResults, hfold2.1, hc1,
      List.filter_append, hr1]
    have hk : resKey ⟨hit.videoId, hit.timestampMs,
        colorAdjustedSim queryColor hit * (6/10)⟩ = hitKey hit := rfl
    simp [hk]

/-- C8 witness: query color `red`, a cached detection of score 0.8 at the
hit's moment `("v", 2000)`, the fused hit raw 0.5 with a red frame, and one
other hit at a different key: the fused moment emits exactly one result
scoring `min(1, max(0.65, 0.8) + 0.1 + 0.1) = 1`. -/
theorem visual_fusion_object_query_witness :
    (¬ ((⟨"v", 2000, 1/2, ["red"]⟩ : ClipHit)).similarity < 22/100) ∧
    (visualFusion (some "red") true [(("v", 2000), (8:ℚ)/10)]
        ([] ++ (⟨"v", 2000, 1/2, ["red"]⟩ : ClipHit) ::
          [(⟨"w", 0, 1/2, []⟩ : ClipHit)])).filter
        (fun r => resKey r = hitKey ⟨"v", 2000, 1/2, ["red"]⟩) =
      [(⟨"v", 2000, 1⟩ : VisResult)] :=
  ⟨by with_unfolding_all decide, by
    have h := (visual_fusion_object_query (some "red") [(("v", 2000), (8:ℚ)/10)]
      [] [(⟨"w", 0, 1/2, []⟩ : ClipHit)] (⟨"v", 2000, 1/2, ["red"]⟩ : ClipHit)
      ((8:ℚ)/10) (by with_unfolding_all decide) (by with_unfolding_all decide)).1
      (by with_unfolding_all decide)
    rw [h]
    with_unfolding_all decide⟩

/-- The best-face fold returns an upper bound of all similarities, never
decreases the running best, and yields either the start accumulator or a
face of the list together with its similarity. -/
theorem bestFaceFold_spec (c : List ℚ) (fs : List FaceRec) (acc : Option String × ℚ) :
    (∀ g ∈ fs, compute_face_similarity g.embedding c ≤ (bestFaceFold c fs acc).2) ∧
    acc.2 ≤ (bestFaceFold c fs acc).2 ∧
    (bestFaceFold c fs acc = acc ∨
      ∃ f ∈ fs, (bestFaceFold c fs acc).1 = some f.faceId ∧
        (bestFaceFold c fs acc).2 = compute_face_similarity f.embedding c) := by
  induction fs generalizing acc with
  | nil => exact ⟨by simp, le_refl _, Or.inl rfl⟩
  | cons f rest ih =>
      by_cases hgt : compute_face_similarity f.embedding c > acc.2
      · have hred : bestFaceFold c (f :: rest) acc =
            bestFaceFold c rest (some f.faceId, compute_face_similarity f.embedding c) := by
          simp [bestFaceFold, hgt]
        have hrec := ih (some f.faceId, compute_face_similarity f.embedding c)
        refine ⟨?_, ?_, ?_⟩
        · intro g hg
          rcases List.mem_cons.mp hg with hgf | hgr
          · rw [hred, hgf]
            exact hrec.2.1
          · rw [hred]
            exact hrec.1 g hgr
        · rw [hred]
          exact (le_of_lt hgt).trans hrec.2.1
        · rw [hred]
          rcases hrec.2.2 with heq | ⟨f2, hf2, h1, h2⟩
          · exact Or.inr ⟨f, List.mem_cons_self _ _, by rw [heq], by rw [heq]⟩
          · exact Or.inr ⟨f2, List.mem_cons_of_mem _ hf2, h1, h2⟩
      · have hred : bestFaceFold c (f :: rest) acc = bestFaceFold c rest acc := by
          simp [bestFaceFold, hgt]
        have hrec := ih acc
        refine ⟨?_, ?_, ?_⟩
        · intro g hg
          rcases List.mem_cons.mp hg with hgf | hgr
          · rw [hred, hgf]
            exact (le_of_not_lt hgt).trans hrec.2.1
          · rw [hred]
            exact hrec.1 g hgr
        · rw [hred]
          exact hrec.2.1
        · rw [hred]
          rcases hrec.2.2 with heq | ⟨f2, hf2, h1, h2⟩
          · exact Or.inl heq
          · exact Or.inr ⟨f2, List.mem_cons_of_mem _ hf2, h1, h2⟩

/-- When `select_best_thumbnail` picks a face, that face is one of the
person's faces and is nearest to the person's centroid. -/
theorem select_best_thumbnail_nearest (pid : String) (faces : List FaceRec)
    (t : String) (h : select_best_thumbnail pid faces = some t) :
    nearestToCentroid pid faces t := by
  unfold select_best_thumbnail at h
  unfold nearestToCentroid
  cases hfs : facesOfPerson pid faces with
  | nil =>
      rw [hfs] at h
      exact absurd h (by simp)
  | cons f1 rest =>
      cases rest with
      | nil =>
          rw [hfs] at h
          simp only [Option.some.injEq] at h
          refine ⟨f1, by simp, by rw [h], ?_⟩
          intro g hg
          rcases List.mem_cons.mp hg with hgf | hgr
          · rw [hgf]
          · exact absurd hgr (by simp)
      | cons f2 rest2 =>
          rw [hfs] at h
          simp only at h
          have hspec := bestFaceFold_spec
            (centroidVec ((f1 :: f2 :: rest2).map (fun f => f.embedding)))
            (f1 :: f2 :: rest2) (none, -1)
          rcases hspec.2.2 with heq | ⟨f, hf, h1, h2⟩
          · rw [heq] at h
            exact absurd h (by simp)
          · rw [h1] at h
            simp only [Option.some.injEq] at h
            refine ⟨f, hf, by rw [← h], ?_⟩
            intro g hg
            rw [← h2]
            exact hspec.1 g hg

/-- A member of an updated persons list whose id is the updated id comes
from a row of that id (the update preserves ids). -/
theorem mem_updatePersonRow_self (pid : String) (upd : PersonRec → PersonRec)
    (l : List PersonRec) (p : PersonRec) (hp : p ∈ updatePersonRow pid upd l)
    (hid : p.personId = pid) : ∃ q ∈ l, q.personId = pid ∧ p = upd q := by
  obtain ⟨q, hq, he⟩ := List.mem_map.mp hp
  by_cases h : q.personId = pid
  · exact ⟨q, hq, h, by rw [← he, if_pos h]⟩
  · have hpq : p = q := by rw [← he, if_neg h]
    exact absurd (hpq ▸ hid) h

/-- A member of an updated persons list whose id differs from the updated
id is an untouched row of the original list, provided the update preserves
ids. -/
theorem mem_updatePersonRow_other (pid : String) (upd : PersonRec → PersonRec)
    (l : List PersonRec) (p : PersonRec) (hp : p ∈ updatePersonRow pid upd l)
    (hid : p.personId ≠ pid)
    (hpres : ∀ q, (upd q).personId = q.personId) : p ∈ l := by
  obtain ⟨q, hq, he⟩ := List.mem_map.mp hp
  by_cases h : q.personId = pid
  · exfalso
    have hpq : p = upd q := by rw [← he, if_pos h]
    exact hid (by rw [hpq, hpres q, h])
  · have hpq : p = q := by rw [← he, if_neg h]
    exact hpq ▸ hq

/-- The learning-signal step never changes the face rows. -/
theorem recordLearningSignals_faces (fid : String) (prev req : Option String)
    (db : FacesDb) : (recordLearningSignals fid prev req db).faces = db.faces := by
  cases prev with
  | none => rfl
  | some p =>
      cases req with
      | none => rfl
      | some r =>
          by_cases h : p = r
          · simp [recordLearningSignals, h]
          · simp [recordLearningSignals, h]

/-- The learning-signal step never changes the person rows. -/
theorem recordLearningSignals_persons (fid : String) (prev req : Option String)
    (db : FacesDb) : (recordLearningSignals fid prev req db).persons = db.persons := by
  cases prev with
  | none => rfl
  | some p =>
      cases req with
      | none => rfl
      | some r =>
          by_cases h : p = r
          · simp [recordLearningSignals, h]
          · simp [recordLearningSignals, h]

/-- On a genuine reassignment the negative `(face_id, previous)` is inserted
exactly when absent. -/
theorem recordLearningSignals_negatives (fid A B : String) (db : FacesDb)
    (hAB : A ≠ B) :
    (recordLearningSignals fid (some A) (some B) db).negatives =
      (if db.negatives.contains (fid, A) then db.negatives
       else db.negatives ++ [(fid, A)]) := by
  simp [recordLearningSignals, hAB]

/-- On a genuine reassignment the sorted pair-threshold row is bumped or
created. -/
theorem recordLearningSignals_pairs (fid A B : String) (db : FacesDb)
    (hAB : A ≠ B) :
    (recordLearningSignals fid (some A) (some B) db).pairThresholds =
      (match db.pairThresholds.find? (fun r =>
          r.personAId = (sortPairStr A B).1 && r.personBId = (sortPairStr A B).2) with
       | some _ => db.pairThresholds.map (fun r =>
            if r.personAId = (sortPairStr A B).1 && r.personBId = (sortPairStr A B).2 then
              { r with threshold := min (r.threshold + 2/100) (85/100),
                       correctionCount := r.correctionCount + 1 }
            else r)
       | none => db.pairThresholds ++
           [{ personAId := (sortPairStr A B).1, personBId := (sortPairStr A B).2,
              threshold := 70/100, correctionCount := 1 }]) := by
  simp [recordLearningSignals, hAB]

/-- C10: a scan of a library whose root folder does not exist raises before
any reconciliation, so the catalog is returned untouched: no row is
inserted, updated, deleted or requeued. -/
theorem scan_missing_root_leaves_catalog (fs : FileSystem)
    (libraryId folderPath : String) (cat : Catalog)
    (h : lookupAssoc folderPath fs = none) :
    scan_library fs libraryId folderPath cat =
      (cat, Except.error ("Folder does not exist: " ++ folderPath)) := by
  unfold scan_library
  rw [h]

/-- C10 witness: scanning the unknown root `/gone` over a catalog holding
one `DONE` and one `FAILED` row of that library errors out and leaves both
rows exactly as they were. -/
theorem scan_missing_root_leaves_catalog_witness :
    lookupAssoc "/gone" demoFs = none ∧
    scan_library demoFs "lib1" "/gone" demoCat =
      (demoCat, Except.error ("Folder does not exist: " ++ "/gone")) :=
  ⟨by decide, scan_missing_root_leaves_catalog demoFs "lib1" "/gone" demoCat (by decide)⟩

/-- C7: assigning a face that previously belonged to person A to an existing
other person B records the `(face, A)` negative idempotently, bumps or
creates the sorted `(A,B)` pair-threshold row (`+0.02` capped at `0.85`, or
a fresh `0.70`), rewrites the face row to B with `manual` provenance and
confidence 1, recomputes both persons' `face_count` from the updated face
rows, and re-picks each person's thumbnail as a face nearest to that
person's centroid. -/
theorem assign_face_endpoint_post (db : FacesDb) (fid A B : String)
    (nowMs : Int) (F : FaceRec)
    (hF : db.faces.find? (fun f => f.faceId = fid) = some F)
    (hFA : F.personId = some A)
    (hAB : A ≠ B)
    (hB : (db.persons.find? (fun p => p.personId = B)).isSome = true) :
    ∃ db2, assign_face_to_person fid (some B) nowMs db = some db2 ∧
      db2.negatives = (if (fid, A) ∈ db.negatives then db.negatives
        else db.negatives ++ [(fid, A)]) ∧
      (db.pairThresholds.find? (fun r =>
          r.personAId = (sortPairStr A B).1 && r.personBId = (sortPairStr A B).2) = none →
        ({ personAId := (sortPairStr A B).1, personBId := (sortPairStr A B).2,
           threshold := 70/100, correctionCount := 1 } : PairThresholdRow) ∈
          db2.pairThresholds) ∧
      (∀ r0, db.pairThresholds.find? (fun r =>
          r.personAId = (sortPairStr A B).1 && r.personBId = (sortPairStr A B).2) = some r0 →
        { r0 with
            threshold := min (r0.threshold + 2/100) (85/100),
            correctionCount := r0.correctionCount + 1 } ∈
          db2.pairThresholds) ∧
      (∃ f ∈ db2.faces, f.faceId = fid ∧ f.personId = some B ∧
        f.assignmentSource = some "manual" ∧ f.assignmentConfidence = some 1) ∧
      (∀ p ∈ db2.persons, p.personId = B → p.faceCount = countFacesOf B db2.faces) ∧
      (∀ p ∈ db2.persons, p.personId = A → p.faceCount = countFacesOf A db2.faces) ∧
      (∀ t, select_best_thumbnail B db2.faces = some t →
        nearestToCentroid B db2.faces t ∧
          ∀ p ∈ db2.persons, p.personId = B → p.thumbnailFaceId = some t) ∧
      (∀ t, select_best_thumbnail A db2.faces = some t →
        nearestToCentroid A db2.faces t ∧
          ∀ p ∈ db2.persons, p.personId = A → p.thumbnailFaceId = some t) := by
  have hBne : (some B : Option String) ≠ some A := fun hc => hAB (Option.some.inj hc).symm
  have hBAne : B ≠ A := Ne.symm hAB
  have hFid : F.faceId = fid := by
    have := List.find?_some hF
    simpa using this
  have hFmem : F ∈ db.faces := List.mem_of_find?_eq_some hF
  have hneg : (recordLearningSignals fid (some A) (some B) db).negatives =
      (if (fid, A) ∈ db.negatives then db.negatives
       else db.negatives ++ [(fid, A)]) := by
    rw [recordLearningSignals_negatives fid A B db hAB]
    by_cases hmem : (fid, A) ∈ db.negatives
    · simp [hmem]
    · simp [hmem]
  have hpairNone : db.pairThresholds.find? (fun r =>
        r.personAId = (sortPairStr A B).1 && r.personBId = (sortPairStr A B).2) = none →
      ({ personAId := (sortPairStr A B).1, personBId := (sortPairStr A B).2,
         threshold := 70/100, correctionCount := 1 } : PairThresholdRow) ∈
        (recordLearningSignals fid (some A) (some B) db).pairThresholds := by
    intro hfind
    rw [recordLearningSignals_pairs fid A B db hAB, hfind]
    simp
  have hpairSome : ∀ r0, db.pairThresholds.find? (fun r =>
        r.personAId = (sortPairStr A B).1 && r.personBId = (sortPairStr A B).2) = some r0 →
      { r0 with
          threshold := min (r0.threshold + 2/100) (85/100),
          correctionCount := r0.correctionCount + 1 } ∈
        (recordLearningSignals fid (some A) (some B) db).pairThresholds := by
    intro r0 hfind
    rw [recordLearningSignals_pairs fid A B db hAB, hfind]
    have hr0mem : r0 ∈ db.pairThresholds := List.mem_of_find?_eq_some hfind
    have hr0cond := List.find?_some hfind
    refine List.mem_map.mpr ⟨r0, hr0mem, ?_⟩
    rw [if_pos hr0cond]
  unfold assign_face_to_person
  rw [hF]
  simp only [hFA, hB, Bool.not_true, Bool.false_eq_true, if_false]
  rw [if_pos hBne]
  rw [recordLearningSignals_faces, recordLearningSignals_persons]
  set faces2 := db.faces.map (fun f =>
    if f.faceId = fid then
      { f with personId := some B, assignmentSource := some "manual",
               assignmentConfidence := some 1, assignedAtMs := some nowMs }
    else f) with hfaces2
  have hface : ∃ f ∈ faces2, f.faceId = fid ∧ f.personId = some B ∧
      f.assignmentSource = some "manual" ∧ f.assignmentConfidence = some 1 := by
    refine ⟨{ F with
                personId := some B,
                assignmentSource := some "manual",
                assignmentConfidence := some 1,
                assignedAtMs := some nowMs },
            ?_, hFid, rfl, rfl, rfl⟩
    rw [hfaces2]
    refine List.mem_map.mpr ⟨F, hFmem, ?_⟩
    rw [if_pos hFid]
  cases hselB : select_best_thumbnail B faces2 with
  | some tB =>
      cases hselA : select_best_thumbnail A faces2 with
      | some tA =>
          refine ⟨_, rfl, hneg, hpairNone, hpairSome, hface, ?_, ?_, ?_, ?_⟩
          · intro p hp hpid
            obtain ⟨q3, hq3, hq3pid, hpq3⟩ := mem_updatePersonRow_self _ _ _ _ hp hpid
            have hq3a := mem_updatePersonRow_other _ _ _ _ hq3
              (by rw [hq3pid]; exact hBAne) (fun q => rfl)
            have hq3b := mem_updatePersonRow_other _ _ _ _ hq3a
              (by rw [hq3pid]; exact hBAne) (fun q => rfl)
            obtain ⟨q0, _, _, hq3eq⟩ := mem_updatePersonRow_self _ _ _ _ hq3b hq3pid
            rw [hpq3, hq3eq]
          · intro p hp hpid
            have hp1 := mem_updatePersonRow_other _ _ _ _ hp
              (by rw [hpid]; exact hAB) (fun q => rfl)
            obtain ⟨q2, hq2, hq2pid, hpq2⟩ := mem_updatePersonRow_self _ _ _ _ hp1 hpid
            obtain ⟨q1, _, _, hq2eq⟩ := mem_updatePersonRow_self _ _ _ _ hq2 hq2pid
            rw [hpq2, hq2eq]
          · intro t ht
            have ht2 : select_best_thumbnail B faces2 = some t := ht
            rw [hselB] at ht2
            obtain rfl : tB = t := Option.some.inj ht2
            refine ⟨select_best_thumbnail_nearest _ _ _ hselB, ?_⟩
            intro p hp hpid
            obtain ⟨q3, hq3, hq3pid, hpq3⟩ := mem_updatePersonRow_self _ _ _ _ hp hpid
            rw [hpq3]
          · intro t ht
            have ht2 : select_best_thumbnail A faces2 = some t := ht
            rw [hselA] at ht2
            obtain rfl : tA = t := Option.some.inj ht2
            refine ⟨select_best_thumbnail_nearest _ _ _ hselA, ?_⟩
            intro p hp hpid
            have hp1 := mem_updatePersonRow_other _ _ _ _ hp
              (by rw [hpid]; exact hAB) (fun q => rfl)
            obtain ⟨q2, hq2, hq2pid, hpq2⟩ := mem_updatePersonRow_self _ _ _ _ hp1 hpid
            rw [hpq2]
      | none =>
          refine ⟨_, rfl, hneg, hpairNone, hpairSome, hface, ?_, ?_, ?_, ?_⟩
          · intro p hp hpid
            obtain ⟨q3, hq3, hq3pid, hpq3⟩ := mem_updatePersonRow_self _ _ _ _ hp hpid
            have hq3a := mem_updatePersonRow_other _ _ _ _ hq3
              (by rw [hq3pid]; exact hBAne) (fun q => rfl)
            obtain ⟨q0, _, _, hq3eq⟩ := mem_updatePersonRow_self _ _ _ _ hq3a hq3pid
            rw [hpq3, hq3eq]
          · intro p hp hpid
            have hp1 := mem_updatePersonRow_other _ _ _ _ hp
              (by rw [hpid]; exact hAB) (fun q => rfl)
            obtain ⟨q1, hq1, hq1pid, hpq1⟩ := mem_updatePersonRow_self _ _ _ _ hp1 hpid
            rw [hpq1]
          · intro t ht
            have ht2 : select_best_thumbnail B faces2 = some t := ht
            rw [hselB] at ht2
            obtain rfl : tB = t := Option.some.inj ht2
            refine ⟨select_best_thumbnail_nearest _ _ _ hselB, ?_⟩
            intro p hp hpid
            obtain ⟨q3, hq3, hq3pid, hpq3⟩ := mem_updatePersonRow_self _ _ _ _ hp hpid
            rw [hpq3]
          · intro t ht
            have ht2 : select_best_thumbnail A faces2 = some t := ht
            rw [hselA] at ht2
            exact absurd ht2 (by simp)
  | none =>
      cases hselA : select_best_thumbnail A faces2 with
      | some tA =>
          refine ⟨_, rfl, hneg, hpairNone, hpairSome, hface, ?_, ?_, ?_, ?_⟩
          · intro p hp hpid
            have hp1 := mem_updatePersonRow_other _ _ _ _ hp
              (by rw [hpid]; exact hBAne) (fun q => rfl)
            have hp2 := mem_updatePersonRow_other _ _ _ _ hp1
              (by rw [hpid]; exact hBAne) (fun q => rfl)
            obtain ⟨q0, hq0, hq0pid, hpq0⟩ := mem_updatePersonRow_self _ _ _ _ hp2 hpid
            rw [hpq0]
          · intro p hp hpid
            obtain ⟨q2, hq2, hq2pid, hpq2⟩ := mem_updatePersonRow_self _ _ _ _ hp hpid
            obtain ⟨q1, hq1, hq1pid, hq2eq⟩ := mem_updatePersonRow_self _ _ _ _ hq2 hq2pid
            rw [hpq2, hq2eq]
          · intro t ht
            have ht2 : select_best_thumbnail B faces2 = some t := ht
            rw [hselB] at ht2
            exact absurd ht2 (by simp)
          · intro t ht
            have ht2 : select_best_thumbnail A faces2 = some t := ht
            rw [hselA] at ht2
            obtain rfl : tA = t := Option.some.inj ht2
            refine ⟨select_best_thumbnail_nearest _ _ _ hselA, ?_⟩
            intro p hp hpid
            obtain ⟨q2, hq2, hq2pid, hpq2⟩ := mem_updatePersonRow_self _ _ _ _ hp hpid
            rw [hpq2]
      | none =>
          refine ⟨_, rfl, hneg, hpairNone, hpairSome, hface, ?_, ?_, ?_, ?_⟩
          · intro p hp hpid
            have hp1 := mem_updatePersonRow_other _ _ _ _ hp
              (by rw [hpid]; exact hBAne) (fun q => rfl)
            obtain ⟨q0, hq0, hq0pid, hpq0⟩ := mem_updatePersonRow_self _ _ _ _ hp1 hpid
            rw [hpq0]
          · intro p hp hpid
            obtain ⟨q1, hq1, hq1pid, hpq1⟩ := mem_updatePersonRow_self _ _ _ _ hp hpid
            rw [hpq1]
          · intro t ht
            have ht2 : select_best_thumbnail B faces2 = some t := ht
            rw [hselB] at ht2
            exact absurd ht2 (by simp)
          · intro t ht
            have ht2 : select_best_thumbnail A faces2 = some t := ht
            rw [hselA] at ht2
            exact absurd ht2 (by simp)

/-- C7 witness: reassigning face `F` (person `A`, manual) to the existing
person `B` on the two-face demo database satisfies every endpoint
postcondition. -/
theorem assign_face_endpoint_post_witness :
    c7DemoDb.faces.find? (fun f => f.faceId = "F") = some c7FaceF ∧
    c7FaceF.personId = some "A" ∧
    "A" ≠ "B" ∧
    (c7DemoDb.persons.find? (fun p => p.personId = "B")).isSome = true ∧
    (∃ db2, assign_face_to_person "F" (some "B") 5 c7DemoDb = some db2 ∧
      db2.negatives = (if ("F", "A") ∈ c7DemoDb.negatives then c7DemoDb.negatives
        else c7DemoDb.negatives ++ [("F", "A")]) ∧
      (c7DemoDb.pairThresholds.find? (fun r =>
          r.personAId = (sortPairStr "A" "B").1 && r.personBId = (sortPairStr "A" "B").2) = none →
        ({ personAId := (sortPairStr "A" "B").1, personBId := (sortPairStr "A" "B").2,
           threshold := 70/100, correctionCount := 1 } : PairThresholdRow) ∈
          db2.pairThresholds) ∧
      (∀ r0, c7DemoDb.pairThresholds.find? (fun r =>
          r.personAId = (sortPairStr "A" "B").1 && r.personBId = (sortPairStr "A" "B").2) = some r0 →
        { r0 with
            threshold := min (r0.threshold + 2/100) (85/100),
            correctionCount := r0.correctionCount + 1 } ∈
          db2.pairThresholds) ∧
      (∃ f ∈ db2.faces, f.faceId = "F" ∧ f.personId = some "B" ∧
        f.assignmentSource = some "manual" ∧ f.assignmentConfidence = some 1) ∧
      (∀ p ∈ db2.persons, p.personId = "B" → p.faceCount = countFacesOf "B" db2.faces) ∧
      (∀ p ∈ db2.persons, p.personId = "A" → p.faceCount = countFacesOf "A" db2.faces) ∧
      (∀ t, select_best_thumbnail "B" db2.faces = some t →
        nearestToCentroid "B" db2.faces t ∧
          ∀ p ∈ db2.persons, p.personId = "B" → p.thumbnailFaceId = some t) ∧
      (∀ t, select_best_thumbnail "A" db2.faces = some t →
        nearestToCentroid "A" db2.faces t ∧
          ∀ p ∈ db2.persons, p.personId = "A" → p.thumbnailFaceId = some t)) :=
  ⟨by with_unfolding_all decide, by with_unfolding_all decide, by decide,
   by with_unfolding_all decide,
   assign_face_endpoint_post c7DemoDb "F" "A" "B" 5 c7FaceF
     (by with_unfolding_all decide) (by with_unfolding_all decide) (by decide)
     (by with_unfolding_all decide)⟩

end Gaze
